import Mathlib

/-!
Verification of the correggi-verifiche-api backend.

The repository contains near-duplicate revisions of the same Express endpoint:
* `R1` — the two-stage pipeline of `src/unnamed/part_001` (first document):
  vision extraction, then text evaluation, then reconciliation;
* `R2` — the two-stage pipeline of `src/unnamed/part_002`, which differs from
  `R1` in the reconciliation defaults and in having an alternative second
  vision call when the extraction JSON cannot be parsed;
* `OS` — the single-shot pipeline of `src/src/index.ts` (first document),
  where one vision call both extracts and evaluates.

JavaScript numbers are modelled by `JNum` (`undef` for `undefined`, `nan`,
or an exact rational).  Exact rationals stand in for IEEE doubles: every
constant appearing in the claims (0.6, halves, tenths) is used symbolically.
Division by zero is mapped to `nan` (JavaScript would give an infinity); no
claim exercises a division by zero.  The model provider, the JSON parser and
`Date.now()` are external effects: each handler takes them as explicit
oracle inputs (an environment record), with the brace-matching regex
`\x7b[\s\S]*\x7d` of the source modelled concretely by `hasBraceSpan`.
-/

/-- A JavaScript numeric value as it flows through the pipeline:
`undefined`, `NaN`, or a finite number (modelled as an exact rational). -/
inductive JNum where
  | undef : JNum
  | nan : JNum
  | num : ℚ → JNum
deriving DecidableEq, Repr

/-- JS `+` on numbers; `undefined` coerces to `NaN`, `NaN` propagates. -/
def jnAdd : JNum → JNum → JNum
  | .num a, .num b => .num (a + b)
  | _, _ => .nan

/-- JS `*` on numbers. -/
def jnMul : JNum → JNum → JNum
  | .num a, .num b => .num (a * b)
  | _, _ => .nan

/-- JS `/` on numbers.  Division by zero is mapped to `NaN` (JavaScript
yields an infinity there; no claim divides by zero). -/
def jnDiv : JNum → JNum → JNum
  | .num a, .num b => if b = 0 then .nan else .num (a / b)
  | _, _ => .nan

/-- `Math.max` of two values: any non-number argument gives `NaN`. -/
def jnMax : JNum → JNum → JNum
  | .num a, .num b => .num (max a b)
  | _, _ => .nan

/-- `Math.min` of two values: any non-number argument gives `NaN`. -/
def jnMin : JNum → JNum → JNum
  | .num a, .num b => .num (min a b)
  | _, _ => .nan

/-- JS `x >= y`: false whenever either side is `undefined` or `NaN`. -/
def jnGe : JNum → JNum → Bool
  | .num a, .num b => decide (b ≤ a)
  | _, _ => false

/-- JS truthiness of a numeric value: `undefined`, `NaN` and `0` are falsy. -/
def jnTruthy : JNum → Bool
  | .num q => decide (q ≠ 0)
  | _ => false

/-- JS `a || b` on numeric values. -/
def jnOr (a b : JNum) : JNum := if jnTruthy a then a else b

/-- `Math.round(q)` for a finite value: round half toward positive infinity. -/
def jsRound (q : ℚ) : ℤ := ⌊q + 1/2⌋

/-- `Math.round(q * 10) / 10` on a finite value: round to one decimal place. -/
def round1 (q : ℚ) : ℚ := (jsRound (q * 10) : ℚ) / 10

/-- `Math.round(x * 10) / 10` lifted to JS numbers. -/
def jnRound1 : JNum → JNum
  | .num q => .num (round1 q)
  | _ => .nan

/-- JS `s || d` for an optional string (absent and `""` are falsy). -/
def jsOrStr (s : Option String) (d : String) : String :=
  match s with
  | none => d
  | some s => if s = "" then d else s

/-- JS falsiness of an optional request-body string field. -/
def strFalsy : Option String → Bool
  | none => true
  | some s => decide (s = "")

/-- The request body's `maxScore` as a JS number (`undefined` when absent). -/
def optJN : Option ℚ → JNum
  | none => .undef
  | some q => .num q

/-- JS `n || d` for an optional integer (absent and `0` are falsy),
used by the single-shot revision for `q.number || index + 1`. -/
def jorInt (o : Option ℤ) (d : ℤ) : ℤ :=
  match o with
  | none => d
  | some n => if n = 0 then d else n

/-- `subject.charAt(0).toUpperCase() + subject.slice(1)`. -/
def capitalizeJS (s : String) : String :=
  match s.data with
  | [] => ""
  | c :: cs => String.mk (c.toUpper :: cs)

/-- Whether the regex `\x7b[\s\S]*\x7d` matches: some `{` is followed,
strictly later, by some `}`. -/
def hasBraceSpan : List Char → Bool
  | [] => false
  | c :: rest => if c = '{' then rest.contains '}' else hasBraceSpan rest

/-- The robust-JSON-extraction attempt.  `content` is the raw model output
(`none` when `choices[0].message.content` is absent); `parsed` is the oracle
result of `JSON.parse` on the brace span (`none` when the parse throws).
When there is no brace span at all the attempt fails regardless of the
oracle. -/
def attemptParse {α : Type} (content : Option String) (parsed : Option α) : Option α :=
  match content with
  | none => none
  | some s => if hasBraceSpan s.data then parsed else none

/-- `map` that also passes the element index, as in
`array.map((x, index) => ...)`; `i` is the index of the first element. -/
def jsMapIdx {α β : Type} (f : α → ℕ → β) : List α → ℕ → List β
  | [], _ => []
  | a :: as, i => f a i :: jsMapIdx f as (i + 1)

/-- Decimal digit characters for the id template strings. -/
def digitChar : ℕ → Char
  | 0 => '0'
  | 1 => '1'
  | 2 => '2'
  | 3 => '3'
  | 4 => '4'
  | 5 => '5'
  | 6 => '6'
  | 7 => '7'
  | 8 => '8'
  | 9 => '9'
  | _ => '?'

/-- Little-endian decimal digits of a natural number (`[0]` for zero),
mirroring how `toString` renders a number in the id template. -/
def natDigitsRev (n : ℕ) : List ℕ :=
  if h : n < 10 then [n]
  else n % 10 :: natDigitsRev (n / 10)
decreasing_by exact Nat.div_lt_self (by omega) (by omega)

/-- Decimal rendering of a natural number, as a character list. -/
def natReprL (n : ℕ) : List Char := ((natDigitsRev n).reverse).map digitChar

/-- Decimal rendering of an integer, as a character list. -/
def intReprL (n : ℤ) : List Char :=
  if n < 0 then '-' :: natReprL n.natAbs else natReprL n.natAbs

/-- Decimal rendering of an integer, as a string. -/
def intRepr (n : ℤ) : String := String.mk (intReprL n)

/-- The question-id template `` q-${number}-${Date.now()} ``. -/
def qid (n : ℤ) (t : ℕ) : String :=
  String.mk (['q', '-'] ++ intReprL n ++ ['-'] ++ natReprL t)

-- Shared data model (identical interfaces across the revisions).

/-- One question of the final report (`Question` in the source). -/
structure Question where
  id : String
  number : ℤ
  text : Option String
  studentAnswer : String
  correctAnswer : String
  score : JNum
  maxScore : JNum
  feedback : String
  isCorrect : Bool
  confirmed : Option Bool
deriving DecidableEq, Repr

/-- The final report (`CorrectionResult` in the source). -/
structure CorrectionResult where
  studentName : String
  subject : String
  totalScore : JNum
  maxScore : JNum
  percentage : JNum
  grade : String
  questions : List Question
  overallFeedback : String
deriving DecidableEq, Repr

/-- The request body of `POST /api/analyze`; untrusted, so every field may
be absent. -/
structure AnalysisRequest where
  image : Option String
  subject : Option String
  testType : Option String
  customInstructions : Option String
  maxScore : Option ℚ
deriving DecidableEq, Repr

/-- An HTTP response of the endpoint: 200 with a result, 400, or 500. -/
inductive HttpResponse where
  | ok : CorrectionResult → HttpResponse
  | badRequest : String → HttpResponse
  | serverError : String → HttpResponse
deriving DecidableEq, Repr

/-- The result carried by a 200 response, if any. -/
def HttpResponse.result? : HttpResponse → Option CorrectionResult
  | .ok r => some r
  | _ => none

/-- An outbound model call: the vision (extraction) endpoint or the text
chat (evaluation) endpoint. -/
inductive ModelCall where
  | vision : ModelCall
  | chat : ModelCall
deriving DecidableEq, Repr

/-- One extracted question, as parsed from the vision model's JSON. -/
structure ExtractedQ where
  number : ℤ
  text : Option String
  studentAnswer : Option String
deriving DecidableEq, Repr

/-- The parsed extraction payload (`questions` may be absent in hostile
JSON; the code checks for that). -/
structure ExtractData where
  studentName : Option String
  questions : Option (List ExtractedQ)
deriving DecidableEq, Repr

/-- One entry of the evaluation model's JSON (all fields untrusted). -/
structure Entry where
  number : Option ℤ
  score : JNum
  correctAnswer : Option String
  feedback : Option String
  isCorrect : Option Bool
deriving DecidableEq, Repr

/-- The parsed evaluation payload. -/
structure EvalData where
  questions : Option (List Entry)
  overallFeedback : Option String
deriving DecidableEq, Repr

/-- `calculateGrade` (identical in every revision): the Italian grade
scale on the raw percentage. -/
def calculateGrade (percentage : JNum) : String :=
  if jnGe percentage (.num 95) then "10 eccellente"
  else if jnGe percentage (.num 85) then "9 distinto"
  else if jnGe percentage (.num 75) then "8 buono"
  else if jnGe percentage (.num 65) then "7 discreto"
  else if jnGe percentage (.num 55) then "6 sufficiente"
  else if jnGe percentage (.num 45) then "5 insufficiente"
  else if jnGe percentage (.num 35) then "4 gravemente insufficiente"
  else if jnGe percentage (.num 25) then "3 molto gravemente insufficiente"
  else "1-2 gravemente insufficiente"

/-- The numeral component of a grade string (used to state monotonicity). -/
def gradeNumeral (s : String) : ℕ :=
  if s = "10 eccellente" then 10
  else if s = "9 distinto" then 9
  else if s = "8 buono" then 8
  else if s = "7 discreto" then 7
  else if s = "6 sufficiente" then 6
  else if s = "5 insufficiente" then 5
  else if s = "4 gravemente insufficiente" then 4
  else if s = "3 molto gravemente insufficiente" then 3
  else if s = "1-2 gravemente insufficiente" then 1
  else 0

/-- Sum of the per-question scores, `questions.reduce((sum, q) => sum + q.score, 0)`. -/
def sumScores (qs : List Question) : JNum :=
  qs.foldl (fun acc q => jnAdd acc q.score) (.num 0)

/-- The evaluation-entry selection shared by both two-stage revisions:
`evaluation.questions?.find(eq => eq.number === q.number) || evaluation.questions?.[index]`. -/
def entrySel (evalQs : Option (List Entry)) (qnum : ℤ) (index : ℕ) : Option Entry :=
  ((evalQs.getD []).find? fun eq => eq.number == some qnum).orElse
    (fun _ => (evalQs.getD [])[index]?)

namespace R1

/-!
Revision `src/unnamed/part_001` (first document): the two-stage SDK
pipeline.  SDK initialization failure is folded into the vision oracle's
error case; `Date.now()` is the single request timestamp `now` (millisecond
clock, constant across one reconciliation pass).
-/

/-- Oracle inputs of one `/api/analyze` request: the two model calls and
the two `JSON.parse` attempts, plus the clock. -/
structure Env where
  visionOutcome : Except String (Option String)
  extractParsed : Option ExtractData
  chatOutcome : Except String (Option String)
  evalParsed : Option EvalData
  now : ℕ
deriving Repr

/-- The three input-validation checks at the top of the handler. -/
def validate (req : AnalysisRequest) : Option HttpResponse :=
  if strFalsy req.image then some (.badRequest "Immagine mancante")
  else if strFalsy req.subject then some (.badRequest "Materia mancante")
  else if strFalsy req.testType then some (.badRequest "Tipo di verifica mancante")
  else none

/-- The body of the reconciliation `map`: match the extracted question to
an evaluation entry by number, else by index; default score `cap/2` via
`||`; clamp with `Math.min(Math.max(0, _), cap)`. -/
def mkQuestion (cap : JNum) (now : ℕ) (evalQs : Option (List Entry))
    (q : ExtractedQ) (index : ℕ) : Question :=
  let evalQ : Option Entry := entrySel evalQs q.number index
  let optScore : JNum := match evalQ with | none => .undef | some e => e.score
  { id := qid q.number now
    number := q.number
    text := q.text
    studentAnswer := jsOrStr q.studentAnswer ""
    correctAnswer := jsOrStr (evalQ.bind (·.correctAnswer)) ""
    score := jnMin (jnMax (.num 0) (jnOr optScore (jnDiv cap (.num 2)))) cap
    maxScore := cap
    feedback := jsOrStr (evalQ.bind (·.feedback)) "Nessun feedback disponibile"
    isCorrect := (evalQ.bind (·.isCorrect)).getD
      (jnGe (jnOr optScore (.num 0)) (jnMul cap (.num (6/10))))
    confirmed := none }

/-- Reconciliation (`finalQuestions`). -/
def finalQuestions (cap : JNum) (now : ℕ) (qs : List ExtractedQ)
    (evalQs : Option (List Entry)) : List Question :=
  jsMapIdx (mkQuestion cap now evalQs) qs 0

/-- Assembly of the final `CorrectionResult` from the reconciled questions. -/
def mkResult (subject : Option String) (maxJ cap : JNum) (now : ℕ)
    (extracted : ExtractData) (qs : List ExtractedQ) (evaluation : EvalData) :
    CorrectionResult :=
  let fqs := finalQuestions cap now qs evaluation.questions
  let totalScore := sumScores fqs
  let percentage := jnMul (jnDiv totalScore maxJ) (.num 100)
  { studentName := jsOrStr extracted.studentName ""
    subject := capitalizeJS (subject.getD "")
    totalScore := jnRound1 totalScore
    maxScore := maxJ
    percentage := jnRound1 percentage
    grade := calculateGrade percentage
    questions := fqs
    overallFeedback := jsOrStr evaluation.overallFeedback "Valutazione completata." }

/-- The `POST /api/analyze` handler: response plus the outbound model calls
actually performed, in order. -/
def handle (req : AnalysisRequest) (env : Env) : HttpResponse × List ModelCall :=
  match validate req with
  | some resp => (resp, [])
  | none =>
    match env.visionOutcome with
    | .error _ =>
      (.serverError ("Errore nell\x27analisi dell\x27immagine. " ++
        "L\x27immagine potrebbe essere troppo grande o in un formato non supportato."),
        [.vision])
    | .ok content =>
      let extracted : ExtractData :=
        (attemptParse content env.extractParsed).getD
          { studentName := some ""
            questions := some [{ number := 1
                                 text := some "Testo estratto dalla verifica"
                                 studentAnswer :=
                                   some (jsOrStr content "Nessun testo riconosciuto") }] }
      match extracted.questions with
      | none =>
        (.badRequest ("Non sono riuscito a identificare domande nella verifica. " ++
          "Assicurati che l\x27immagine sia chiara e leggibile."), [.vision])
      | some qs =>
        if qs = [] then
          (.badRequest ("Non sono riuscito a identificare domande nella verifica. " ++
            "Assicurati che l\x27immagine sia chiara e leggibile."), [.vision])
        else
          let maxJ := optJN req.maxScore
          let cap := jnDiv maxJ (.num qs.length)
          match env.chatOutcome with
          | .error _ => (.serverError "Errore nella valutazione. Riprova.", [.vision, .chat])
          | .ok evalContent =>
            let evaluation : EvalData :=
              (attemptParse evalContent env.evalParsed).getD
                { questions := some (qs.map fun q =>
                    { number := some q.number
                      score := jnDiv cap (.num 2)
                      correctAnswer := some ""
                      feedback := some "Valutazione automatica"
                      isCorrect := some false })
                  overallFeedback := some "Valutazione completata con valori di default." }
            (.ok (mkResult req.subject maxJ cap env.now extracted qs evaluation),
              [.vision, .chat])

end R1

namespace R2

/-!
Revision `src/unnamed/part_002`: the two-stage SDK pipeline with an
alternative second vision call when the extraction JSON cannot be parsed.
The STUDENTE/DOMANDA/RISPOSTA regex parse of the alternative response is an
external text transformation; its output (a student name and a question
list, possibly empty) is part of the oracle environment.
-/

/-- Oracle inputs of one request, including the alternative extraction path. -/
structure Env where
  visionOutcome : Except String (Option String)
  extractParsed : Option ExtractData
  altVisionOutcome : Except String (Option String)
  altStudentName : String
  altQuestions : List ExtractedQ
  chatOutcome : Except String (Option String)
  evalParsed : Option EvalData
  now : ℕ
deriving Repr

/-- The single combined input-validation check. -/
def validate (req : AnalysisRequest) : Option HttpResponse :=
  if strFalsy req.image || strFalsy req.subject || strFalsy req.testType then
    some (.badRequest "Immagine, materia e tipo di verifica sono obbligatori")
  else none

/-- The synthesized default entry of this revision's reconciliation. -/
def defaultEntry (cap : JNum) : Entry :=
  { number := none
    score := jnDiv cap (.num 2)
    correctAnswer := some ""
    feedback := some "Nessun feedback"
    isCorrect := some false }

/-- The body of the reconciliation `map`: entry by number, else by index,
else the synthesized default; score `entry.score || 0` clamped into
`[0, cap]`. -/
def mkQuestion (cap : JNum) (now : ℕ) (evalQs : Option (List Entry))
    (q : ExtractedQ) (index : ℕ) : Question :=
  let evaluationQ : Entry := (entrySel evalQs q.number index).getD (defaultEntry cap)
  { id := qid q.number now
    number := q.number
    text := q.text
    studentAnswer := jsOrStr q.studentAnswer ""
    correctAnswer := jsOrStr evaluationQ.correctAnswer ""
    score := jnMin (jnMax (.num 0) (jnOr evaluationQ.score (.num 0))) cap
    maxScore := cap
    feedback := jsOrStr evaluationQ.feedback "Nessun feedback disponibile"
    isCorrect := evaluationQ.isCorrect.getD
      (jnGe evaluationQ.score (jnMul cap (.num (6/10))))
    confirmed := none }

/-- Reconciliation (`finalQuestions`). -/
def finalQuestions (cap : JNum) (now : ℕ) (qs : List ExtractedQ)
    (evalQs : Option (List Entry)) : List Question :=
  jsMapIdx (mkQuestion cap now evalQs) qs 0

/-- Assembly of the final `CorrectionResult` (same shape as in `R1`). -/
def mkResult (subject : Option String) (maxJ cap : JNum) (now : ℕ)
    (extracted : ExtractData) (qs : List ExtractedQ) (evaluation : EvalData) :
    CorrectionResult :=
  let fqs := finalQuestions cap now qs evaluation.questions
  let totalScore := sumScores fqs
  let percentage := jnMul (jnDiv totalScore maxJ) (.num 100)
  { studentName := jsOrStr extracted.studentName ""
    subject := capitalizeJS (subject.getD "")
    totalScore := jnRound1 totalScore
    maxScore := maxJ
    percentage := jnRound1 percentage
    grade := calculateGrade percentage
    questions := fqs
    overallFeedback := jsOrStr evaluation.overallFeedback "Valutazione completata." }

/-- The rest of the handler once an extraction payload is in hand;
`calls` are the model calls performed so far. -/
def continueWith (req : AnalysisRequest) (env : Env) (extracted : ExtractData)
    (calls : List ModelCall) : HttpResponse × List ModelCall :=
  match extracted.questions with
  | none =>
    (.badRequest ("Non sono riuscito a identificare domande nella verifica. " ++
      "Assicurati che l\x27immagine sia chiara e leggibile."), calls)
  | some qs =>
    if qs = [] then
      (.badRequest ("Non sono riuscito a identificare domande nella verifica. " ++
        "Assicurati che l\x27immagine sia chiara e leggibile."), calls)
    else
      let maxJ := optJN req.maxScore
      let cap := jnDiv maxJ (.num qs.length)
      match env.chatOutcome with
      | .error _ =>
        (.serverError "Si è verificato un errore durante l\x27analisi. Riprova.",
          calls ++ [.chat])
      | .ok evalContent =>
        let evaluation : EvalData :=
          (attemptParse evalContent env.evalParsed).getD
            { questions := some (qs.map fun q =>
                { number := some q.number
                  score := jnDiv cap (.num 2)
                  correctAnswer := some ""
                  feedback := some "Valutazione non disponibile"
                  isCorrect := some false })
              overallFeedback :=
                some "Non è stato possibile generare una valutazione dettagliata." }
        (.ok (mkResult req.subject maxJ cap env.now extracted qs evaluation),
          calls ++ [.chat])

/-- The handler.  Neither model call is individually wrapped, so a failing
call falls through to the outer catch (generic 500). -/
def handle (req : AnalysisRequest) (env : Env) : HttpResponse × List ModelCall :=
  match validate req with
  | some resp => (resp, [])
  | none =>
    match env.visionOutcome with
    | .error _ =>
      (.serverError "Si è verificato un errore durante l\x27analisi. Riprova.", [.vision])
    | .ok content =>
      match attemptParse content env.extractParsed with
      | some extracted => continueWith req env extracted [.vision]
      | none =>
        match env.altVisionOutcome with
        | .error _ =>
          (.serverError "Si è verificato un errore durante l\x27analisi. Riprova.",
            [.vision, .vision])
        | .ok _ =>
          continueWith req env
            { studentName := some env.altStudentName
              questions := some env.altQuestions }
            [.vision, .vision]

end R2

namespace OS

/-!
Revision `src/src/index.ts` (first document): the single-shot pipeline.
One vision call returns a combined extraction + evaluation JSON; the
handler normalizes it into the same `CorrectionResult` shape.
-/

/-- One question of the combined analysis JSON (all fields untrusted). -/
structure OSQ where
  number : Option ℤ
  text : Option String
  studentAnswer : Option String
  correctAnswer : Option String
  isCorrect : Option Bool
  score : JNum
  feedback : Option String
deriving DecidableEq, Repr

/-- The combined analysis payload of the single vision call. -/
structure OSData where
  studentName : Option String
  totalQuestions : JNum
  questions : Option (List OSQ)
  overallFeedback : Option String
  totalScore : JNum
deriving DecidableEq, Repr

/-- Oracle inputs of one request. -/
structure Env where
  visionOutcome : Except String (Option String)
  parsed : Option OSData
  now : ℕ
deriving Repr

/-- `typeof q.score === \x27number\x27` (`NaN` is of type number). -/
def jnIsNumber : JNum → Bool
  | .undef => false
  | _ => true

/-- The three input-validation checks at the top of the handler. -/
def validate (req : AnalysisRequest) : Option HttpResponse :=
  if strFalsy req.image then some (.badRequest "Immagine mancante")
  else if strFalsy req.subject then some (.badRequest "Materia mancante")
  else if strFalsy req.testType then some (.badRequest "Tipo di verifica mancante")
  else none

/-- The body of the normalization `map`. -/
def mkQuestion (cap : JNum) (now : ℕ) (q : OSQ) (index : ℕ) : Question :=
  let score : JNum :=
    if jnIsNumber q.score then q.score
    else if q.isCorrect.getD false then cap else .num 0
  { id := qid (jorInt q.number ((index : ℤ) + 1)) now
    number := jorInt q.number ((index : ℤ) + 1)
    text := some (jsOrStr q.text ("Domanda " ++ intRepr (jorInt q.number ((index : ℤ) + 1))))
    studentAnswer := jsOrStr q.studentAnswer ""
    correctAnswer := jsOrStr q.correctAnswer ""
    score := jnMin (jnMax (.num 0) score) cap
    maxScore := cap
    feedback := jsOrStr q.feedback (if q.isCorrect.getD false then "Corretto" else "Non corretto")
    isCorrect := q.isCorrect.getD false
    confirmed := none }

/-- Normalization of the model's question list (`finalQuestions`). -/
def finalQuestions (cap : JNum) (now : ℕ) (qs : List OSQ) : List Question :=
  jsMapIdx (fun q index => mkQuestion cap now q index) qs 0

/-- The `POST /api/analyze` handler of the single-shot revision. -/
def handle (req : AnalysisRequest) (env : Env) : HttpResponse × List ModelCall :=
  match validate req with
  | some resp => (resp, [])
  | none =>
    match env.visionOutcome with
    | .error _ => (.serverError "Errore nell\x27analisi dell\x27immagine", [.vision])
    | .ok rawContent =>
      if strFalsy rawContent then (.serverError "Nessuna risposta dall\x27IA", [.vision])
      else
        match attemptParse rawContent env.parsed with
        | none => (.serverError "Errore nel parsing della risposta AI", [.vision])
        | some analysisResult =>
          match analysisResult.questions with
          | none => (.serverError "Struttura risposta non valida", [.vision])
          | some qs =>
            let maxJ := optJN req.maxScore
            let questionsPerScore :=
              jnDiv maxJ (jnOr (jnOr analysisResult.totalQuestions (.num qs.length)) (.num 1))
            let fqs := finalQuestions questionsPerScore env.now qs
            let totalScore := jnOr analysisResult.totalScore (sumScores fqs)
            let percentage := jnMul (jnDiv totalScore maxJ) (.num 100)
            (.ok { studentName := jsOrStr analysisResult.studentName ""
                   subject := capitalizeJS (req.subject.getD "")
                   totalScore := jnRound1 totalScore
                   maxScore := maxJ
                   percentage := jnRound1 percentage
                   grade := calculateGrade percentage
                   questions := fqs
                   overallFeedback := jsOrStr analysisResult.overallFeedback "Analisi completata." },
              [.vision])

end OS

/-!
Spec-side definitions.  `specSelect`, `clampQ`, `specScoreR2`, `specScoreR1`
and `specIsCorrect` transcribe the reconciliation rule as the specification
words it ("locate its evaluation entry by matching number first; if no
match, fall back to the same positional index; if still absent, synthesize
a default entry; clamp score into [0, perQuestionCap]"), over plain
rationals, to be compared with the code-side `finalQuestions`.
-/

/-- Spec-side entry selection: by matching number first, else the entry at
the same positional index. -/
def specSelect (entries : List Entry) (qnum : ℤ) (i : ℕ) : Option Entry :=
  match entries.find? fun e => e.number == some qnum with
  | some e => some e
  | none => entries[i]?

/-- Spec-side clamp of a score into `[0, cap]`. -/
def clampQ (s cap : ℚ) : ℚ := min (max 0 s) cap

/-- Spec-side final score for the `part_002` revision: the selected
entry's score (a missing or non-numeric score counting as 0) clamped; a
synthesized default scores `cap/2` clamped. -/
def specScoreR2 (sel : Option Entry) (cap : ℚ) : ℚ :=
  match sel with
  | some e =>
    match e.score with
    | .num s => clampQ s cap
    | _ => clampQ 0 cap
  | none => clampQ (cap / 2) cap

/-- Spec-side final score for the `part_001` revision: as `specScoreR2`,
except that a falsy provided score (0, missing, or non-numeric) is first
replaced by `cap/2`. -/
def specScoreR1 (sel : Option Entry) (cap : ℚ) : ℚ :=
  match sel with
  | some e =>
    match e.score with
    | .num s => if s = 0 then clampQ (cap / 2) cap else clampQ s cap
    | _ => clampQ (cap / 2) cap
  | none => clampQ (cap / 2) cap

/-- Spec-side correctness flag: the provided flag when present, otherwise
`score >= 0.6 * cap` on the entry's numeric score; a synthesized default is
marked incorrect (for positive `cap`). -/
def specIsCorrect (sel : Option Entry) (cap : ℚ) : Bool :=
  match sel with
  | some e =>
    e.isCorrect.getD
      (match e.score with
       | .num s => decide (cap * (6/10) ≤ s)
       | _ => false)
  | none => false

/-- The numeral of the grade bracket a percentage falls in (spec-side). -/
def numOf (p : ℚ) : ℕ :=
  if 95 ≤ p then 10
  else if 85 ≤ p then 9
  else if 75 ≤ p then 8
  else if 65 ≤ p then 7
  else if 55 ≤ p then 6
  else if 45 ≤ p then 5
  else if 35 ≤ p then 4
  else if 25 ≤ p then 3
  else 1

/-- A placeholder report used to name concrete pipeline outputs. -/
def emptyResult : CorrectionResult :=
  { studentName := "", subject := "", totalScore := .nan, maxScore := .nan
    percentage := .nan, grade := "", questions := [], overallFeedback := "" }

-- Concrete fixtures for the claim theorems.

/-- A well-formed request with `maxScore = 10`. -/
def reqTen : AnalysisRequest :=
  { image := some "data-uri", subject := some "storia", testType := some "aperte"
    customInstructions := none, maxScore := some 10 }

/-- R1 environment: extraction parses to two questions, evaluation output
is plain prose (no JSON anywhere), so the evaluation fallback applies. -/
def c3env1 : R1.Env :=
  { visionOutcome := .ok (some "{x}")
    extractParsed := some
      { studentName := some "Mario"
        questions := some [⟨1, some "Capitale?", some "Roma"⟩, ⟨2, some "Fiume?", some "Po"⟩] }
    chatOutcome := .ok (some "Mi dispiace, non posso produrre JSON.")
    evalParsed := none
    now := 3 }

/-- R2 environment for the same scenario. -/
def c3env2 : R2.Env :=
  { visionOutcome := .ok (some "{x}")
    extractParsed := some
      { studentName := some "Mario"
        questions := some [⟨1, some "Capitale?", some "Roma"⟩, ⟨2, some "Fiume?", some "Po"⟩] }
    altVisionOutcome := .ok (some "")
    altStudentName := ""
    altQuestions := []
    chatOutcome := .ok (some "Mi dispiace, non posso produrre JSON.")
    evalParsed := none
    now := 3 }

/-- Single-shot environment: the model supplies per-question scores 3 and 4
but also a bogus top-level `totalScore` of 100. -/
def c4env : OS.Env :=
  { visionOutcome := .ok (some "{x}")
    parsed := some
      { studentName := some "Mario"
        totalQuestions := .num 2
        questions := some
          [{ number := some 1, text := some "Capitale?", studentAnswer := some "Roma"
             correctAnswer := some "Roma", isCorrect := some true, score := .num 3
             feedback := some "ok" },
           { number := some 2, text := some "Fiume?", studentAnswer := some "Po"
             correctAnswer := some "Po", isCorrect := some true, score := .num 4
             feedback := some "ok" }]
        overallFeedback := some "Bene"
        totalScore := .num 100 }
    now := 5 }

/-- R1 environment for end-to-end scenario 1: two questions, evaluation
entries with matching numbers and scores 3 and 4. -/
def c4senv : R1.Env :=
  { visionOutcome := .ok (some "{x}")
    extractParsed := some
      { studentName := some "Mario"
        questions := some [⟨1, some "Capitale?", some "Roma"⟩, ⟨2, some "Fiume?", some "Po"⟩] }
    chatOutcome := .ok (some "{e}")
    evalParsed := some
      { questions := some
          [{ number := some 1, score := .num 3, correctAnswer := some "Roma"
             feedback := some "ok", isCorrect := some true },
           { number := some 2, score := .num 4, correctAnswer := some "Po"
             feedback := some "quasi", isCorrect := some true }]
        overallFeedback := some "Discreto" }
    now := 5 }

/-- The report of scenario 1 under `R1`. -/
def c4sres : CorrectionResult := ((R1.handle reqTen c4senv).1.result?).getD emptyResult

/-- The report of the `c4env` run under the single-shot revision. -/
def c4osres : CorrectionResult := ((OS.handle reqTen c4env).1.result?).getD emptyResult

/-- R2 environment in which the extraction JSON parse fails, the
alternative vision call succeeds, and its regex parse yields no questions. -/
def c6env : R2.Env :=
  { visionOutcome := .ok (some "solo prosa, nessun oggetto")
    extractParsed := none
    altVisionOutcome := .ok (some "STUDENTE: non indicato")
    altStudentName := "non indicato"
    altQuestions := []
    chatOutcome := .ok none
    evalParsed := none
    now := 0 }

/-- A request lacking the `image` field. -/
def noImageReq : AnalysisRequest :=
  { image := none, subject := some "storia", testType := some "aperte"
    customInstructions := none, maxScore := some 10 }

/-- A benign R1 environment (never reached on invalid requests). -/
def idleEnv1 : R1.Env :=
  { visionOutcome := .ok none, extractParsed := none
    chatOutcome := .ok none, evalParsed := none, now := 0 }

/-- A benign R2 environment. -/
def idleEnv2 : R2.Env :=
  { visionOutcome := .ok none, extractParsed := none
    altVisionOutcome := .ok none, altStudentName := "", altQuestions := []
    chatOutcome := .ok none, evalParsed := none, now := 0 }

/-- A benign single-shot environment. -/
def idleEnv3 : OS.Env := { visionOutcome := .ok none, parsed := none, now := 0 }

/-- A well-formed request whose body has no `maxScore` field at all. -/
def noMaxReq : AnalysisRequest :=
  { image := some "data-uri", subject := some "storia", testType := some "aperte"
    customInstructions := none, maxScore := none }

/-- A request with `maxScore = 2500`. -/
def c10req : AnalysisRequest :=
  { image := some "data-uri", subject := some "storia", testType := some "aperte"
    customInstructions := none, maxScore := some 2500 }

/-- R1 environment: one question whose evaluation scores 2374 of 2500, an
unrounded percentage of 94.96. -/
def c10env : R1.Env :=
  { visionOutcome := .ok (some "{x}")
    extractParsed := some
      { studentName := some "Mario", questions := some [⟨1, some "Tema", some "Svolto"⟩] }
    chatOutcome := .ok (some "{e}")
    evalParsed := some
      { questions := some
          [{ number := some 1, score := .num 2374, correctAnswer := some ""
             feedback := some "ok", isCorrect := some true }]
        overallFeedback := some "Quasi perfetto" }
    now := 7 }

/-- The report of the `c10env` run. -/
def c10res : CorrectionResult := ((R1.handle c10req c10env).1.result?).getD emptyResult

-- Basic lemmas about the JS-number model and list helpers.

theorem jnAdd_nan_left (x : JNum) : jnAdd .nan x = .nan := by
  cases x <;> rfl

theorem jnMin_nan_right (x : JNum) : jnMin x .nan = .nan := by
  cases x <;> rfl

theorem jnOr_num (s : ℚ) (b : JNum) :
    jnOr (.num s) b = if s = 0 then b else .num s := by
  by_cases h : s = 0 <;> simp [jnOr, jnTruthy, h]

theorem jnOr_undef (b : JNum) : jnOr .undef b = b := rfl

theorem jnOr_nan (b : JNum) : jnOr .nan b = b := rfl

theorem jsMapIdx_length {α β : Type} (f : α → ℕ → β) (l : List α) (i : ℕ) :
    (jsMapIdx f l i).length = l.length := by
  induction l generalizing i with
  | nil => rfl
  | cons a as ih => simp [jsMapIdx, ih]

theorem jsMapIdx_getElem? {α β : Type} (f : α → ℕ → β) (l : List α) (i k : ℕ) :
    (jsMapIdx f l i)[k]? = (l[k]?).map fun a => f a (i + k) := by
  induction l generalizing i k with
  | nil => simp [jsMapIdx]
  | cons a as ih =>
    cases k with
    | zero => simp [jsMapIdx]
    | succ k =>
      simp only [jsMapIdx, List.getElem?_cons_succ, ih]
      have : i + 1 + k = i + (k + 1) := by omega
      rw [this]

theorem mem_jsMapIdx {α β : Type} {b : β} {f : α → ℕ → β} {l : List α} {i : ℕ}
    (h : b ∈ jsMapIdx f l i) : ∃ a ∈ l, ∃ j, b = f a j := by
  induction l generalizing i with
  | nil => simp [jsMapIdx] at h
  | cons x xs ih =>
    simp only [jsMapIdx, List.mem_cons] at h
    rcases h with h | h
    · exact ⟨x, List.mem_cons_self x xs, i, h⟩
    · obtain ⟨a, ha, j, hj⟩ := ih h
      exact ⟨a, List.mem_cons_of_mem x ha, j, hj⟩

theorem jsMapIdx_map {α β γ : Type} (f : α → ℕ → β) (g : β → γ) (k : α → γ)
    (hg : ∀ a j, g (f a j) = k a) (l : List α) (i : ℕ) :
    (jsMapIdx f l i).map g = l.map k := by
  induction l generalizing i with
  | nil => rfl
  | cons a as ih => simp [jsMapIdx, hg, ih]

theorem foldl_scores_const {s : ℚ} :
    ∀ (l : List Question) (a : ℚ), (∀ q ∈ l, q.score = .num s) →
      l.foldl (fun acc q => jnAdd acc q.score) (.num a) = .num (a + l.length * s) := by
  intro l
  induction l with
  | nil => intro a _; simp
  | cons q qs ih =>
    intro a h
    have hq : q.score = .num s := h q (List.mem_cons_self q qs)
    have hrest : ∀ p ∈ qs, p.score = .num s := fun p hp => h p (List.mem_cons_of_mem q hp)
    simp only [List.foldl_cons, hq]
    have hstep : jnAdd (.num a) (.num s) = .num (a + s) := rfl
    rw [hstep, ih (a + s) hrest, List.length_cons]
    congr 1
    push_cast
    ring

theorem sumScores_const {s : ℚ} {l : List Question} (h : ∀ q ∈ l, q.score = .num s) :
    sumScores l = .num (l.length * s) := by
  have := foldl_scores_const l 0 h
  simpa [sumScores] using this

theorem foldl_scores_nan : ∀ (l : List Question),
    l.foldl (fun acc q => jnAdd acc q.score) .nan = .nan := by
  intro l
  induction l with
  | nil => rfl
  | cons q qs ih => simpa [List.foldl_cons, jnAdd_nan_left] using ih

theorem sumScores_nan {l : List Question} (h : ∀ q ∈ l, q.score = .nan) (hne : l ≠ []) :
    sumScores l = .nan := by
  match l, hne with
  | q :: qs, _ =>
    have hq : q.score = .nan := h q (List.mem_cons_self q qs)
    simp only [sumScores, List.foldl_cons, hq]
    have : jnAdd (.num 0) .nan = .nan := rfl
    rw [this, foldl_scores_nan]

theorem round1_eq_self {q : ℚ} (k : ℤ) (hk : (k : ℚ) = q * 10) : round1 q = q := by
  unfold round1 jsRound
  rw [← hk]
  have : ⌊(k : ℚ) + 1/2⌋ = k := by
    rw [add_comm, Int.floor_add_int]
    norm_num
  rw [this]
  have h10 : (10 : ℚ) ≠ 0 := by norm_num
  field_simp
  linarith [hk]

theorem clampQ_nonneg {s cap : ℚ} (hcap : 0 ≤ cap) : 0 ≤ clampQ s cap := by
  unfold clampQ
  exact le_min (le_max_left 0 s) hcap

theorem clampQ_le {s cap : ℚ} : clampQ s cap ≤ cap := min_le_right _ _

-- Injectivity of the id template in the question number.

theorem natDigitsRev_ne_nil (n : ℕ) : natDigitsRev n ≠ [] := by
  rw [natDigitsRev]
  split <;> simp

theorem natDigitsRev_lt (n : ℕ) : ∀ d ∈ natDigitsRev n, d < 10 := by
  induction n using Nat.strong_induction_on with
  | _ n ih =>
    rw [natDigitsRev]
    split
    · intro d hd
      simp only [List.mem_singleton] at hd
      omega
    · intro d hd
      rcases List.mem_cons.mp hd with h | h
      · subst h; exact Nat.mod_lt _ (by omega)
      · exact ih (n / 10) (Nat.div_lt_self (by omega) (by omega)) d h

theorem natDigitsRev_eq (n : ℕ) :
    natDigitsRev n = if n < 10 then [n] else n % 10 :: natDigitsRev (n / 10) := by
  conv_lhs => rw [natDigitsRev]
  rw [dite_eq_ite]

theorem natDigitsRev_inj : ∀ m n : ℕ, natDigitsRev m = natDigitsRev n → m = n := by
  intro m
  induction m using Nat.strong_induction_on with
  | _ m ih =>
    intro n h
    by_cases hm : m < 10 <;> by_cases hn : n < 10
    · rw [natDigitsRev_eq m, if_pos hm, natDigitsRev_eq n, if_pos hn] at h
      simpa using h
    · exfalso
      rw [natDigitsRev_eq m, if_pos hm, natDigitsRev_eq n, if_neg hn] at h
      have htl := congrArg List.tail h
      simp only [List.tail_cons] at htl
      exact natDigitsRev_ne_nil (n / 10) htl.symm
    · exfalso
      rw [natDigitsRev_eq m, if_neg hm, natDigitsRev_eq n, if_pos hn] at h
      have htl := congrArg List.tail h
      simp only [List.tail_cons] at htl
      exact natDigitsRev_ne_nil (m / 10) htl
    · rw [natDigitsRev_eq m, if_neg hm, natDigitsRev_eq n, if_neg hn] at h
      have h1 : m % 10 = n % 10 := by
        have := congrArg List.head? h
        simpa using this
      have h2 : natDigitsRev (m / 10) = natDigitsRev (n / 10) := by
        have := congrArg List.tail h
        simpa using this
      have h3 : m / 10 = n / 10 :=
        ih (m / 10) (Nat.div_lt_self (by omega) (by omega)) _ h2
      omega

theorem digitChar_inj : ∀ a : ℕ, a < 10 → ∀ b : ℕ, b < 10 → digitChar a = digitChar b → a = b := by
  decide

theorem map_digitChar_inj :
    ∀ l₁ l₂ : List ℕ, (∀ d ∈ l₁, d < 10) → (∀ d ∈ l₂, d < 10) →
      l₁.map digitChar = l₂.map digitChar → l₁ = l₂ := by
  intro l₁
  induction l₁ with
  | nil =>
    intro l₂ _ _ h
    cases l₂ with
    | nil => rfl
    | cons x xs => simp at h
  | cons a as ih =>
    intro l₂ h1 h2 h
    cases l₂ with
    | nil => simp at h
    | cons b bs =>
      simp only [List.map_cons, List.cons.injEq] at h
      have ha : a = b :=
        digitChar_inj a (h1 a (List.mem_cons_self a as)) b (h2 b (List.mem_cons_self b bs)) h.1
      have hs : as = bs :=
        ih bs (fun d hd => h1 d (List.mem_cons_of_mem a hd))
          (fun d hd => h2 d (List.mem_cons_of_mem b hd)) h.2
      rw [ha, hs]

theorem natReprL_inj : ∀ m n : ℕ, natReprL m = natReprL n → m = n := by
  intro m n h
  unfold natReprL at h
  have h2 : (natDigitsRev m).reverse = (natDigitsRev n).reverse :=
    map_digitChar_inj _ _ (fun d hd => natDigitsRev_lt m d (List.mem_reverse.mp hd))
      (fun d hd => natDigitsRev_lt n d (List.mem_reverse.mp hd)) h
  exact natDigitsRev_inj m n (List.reverse_injective h2)

theorem natReprL_no_dash (n : ℕ) : ∀ c ∈ natReprL n, c ≠ '-' := by
  intro c hc
  unfold natReprL at hc
  obtain ⟨d, hd, rfl⟩ := List.mem_map.mp hc
  have hlt : d < 10 := natDigitsRev_lt n d (List.mem_reverse.mp hd)
  interval_cases d <;> decide

theorem natReprL_ne_nil (n : ℕ) : natReprL n ≠ [] := by
  unfold natReprL
  intro h
  have := natDigitsRev_ne_nil n
  simp only [List.map_eq_nil_iff, List.reverse_eq_nil_iff] at h
  exact this h

theorem intReprL_inj : ∀ m n : ℤ, intReprL m = intReprL n → m = n := by
  intro m n h
  unfold intReprL at h
  split at h <;> split at h
  · rename_i hm hn
    simp only [List.cons.injEq, true_and] at h
    have := natReprL_inj _ _ h
    omega
  · rename_i hm hn
    exfalso
    cases hcase : natReprL n.natAbs with
    | nil => exact natReprL_ne_nil _ hcase
    | cons c cs =>
      rw [hcase] at h
      have hc : c ∈ natReprL n.natAbs := by rw [hcase]; exact List.mem_cons_self c cs
      have := natReprL_no_dash n.natAbs c hc
      have hdash : '-' = c := by
        have := congrArg List.head? h
        simpa [hcase] using this
      exact this hdash.symm
  · rename_i hm hn
    exfalso
    cases hcase : natReprL m.natAbs with
    | nil => exact natReprL_ne_nil _ hcase
    | cons c cs =>
      rw [hcase] at h
      have hc : c ∈ natReprL m.natAbs := by rw [hcase]; exact List.mem_cons_self c cs
      have := natReprL_no_dash m.natAbs c hc
      have hdash : c = '-' := by
        have := congrArg List.head? h
        simpa [hcase] using this
      exact this hdash
  · rename_i hm hn
    have := natReprL_inj _ _ h
    omega

theorem qid_inj_left {t : ℕ} : ∀ m n : ℤ, qid m t = qid n t → m = n := by
  intro m n h
  unfold qid at h
  have hdata : ['q', '-'] ++ (intReprL m ++ (['-'] ++ natReprL t)) =
      ['q', '-'] ++ (intReprL n ++ (['-'] ++ natReprL t)) := by
    have := congrArg String.data h
    simpa [List.append_assoc] using this
  have h1 := List.append_cancel_left hdata
  exact intReprL_inj m n (List.append_cancel_right h1)

-- Validation and handler-path lemmas.

theorem R1_validate_falsy {req : AnalysisRequest}
    (h : (strFalsy req.image || strFalsy req.subject || strFalsy req.testType) = true) :
    ∃ m, R1.validate req = some (.badRequest m) := by
  unfold R1.validate
  split_ifs with h1 h2 h3
  · exact ⟨_, rfl⟩
  · exact ⟨_, rfl⟩
  · exact ⟨_, rfl⟩
  · simp [h1, h2, h3] at h

theorem R1_validate_ok {req : AnalysisRequest}
    (h1 : strFalsy req.image = false) (h2 : strFalsy req.subject = false)
    (h3 : strFalsy req.testType = false) : R1.validate req = none := by
  unfold R1.validate
  simp [h1, h2, h3]

theorem R2_validate_falsy {req : AnalysisRequest}
    (h : (strFalsy req.image || strFalsy req.subject || strFalsy req.testType) = true) :
    ∃ m, R2.validate req = some (.badRequest m) := by
  unfold R2.validate
  rw [if_pos h]
  exact ⟨_, rfl⟩

theorem R2_validate_ok {req : AnalysisRequest}
    (h1 : strFalsy req.image = false) (h2 : strFalsy req.subject = false)
    (h3 : strFalsy req.testType = false) : R2.validate req = none := by
  unfold R2.validate
  simp [h1, h2, h3]

theorem OS_validate_falsy {req : AnalysisRequest}
    (h : (strFalsy req.image || strFalsy req.subject || strFalsy req.testType) = true) :
    ∃ m, OS.validate req = some (.badRequest m) := by
  unfold OS.validate
  split_ifs with h1 h2 h3
  · exact ⟨_, rfl⟩
  · exact ⟨_, rfl⟩
  · exact ⟨_, rfl⟩
  · simp [h1, h2, h3] at h

theorem OS_validate_ok {req : AnalysisRequest}
    (h1 : strFalsy req.image = false) (h2 : strFalsy req.subject = false)
    (h3 : strFalsy req.testType = false) : OS.validate req = none := by
  unfold OS.validate
  simp [h1, h2, h3]

theorem R1_handle_of_validate {req : AnalysisRequest} {env : R1.Env} {resp : HttpResponse}
    (h : R1.validate req = some resp) : R1.handle req env = (resp, []) := by
  unfold R1.handle
  rw [h]

theorem R2_handle_of_validate {req : AnalysisRequest} {env : R2.Env} {resp : HttpResponse}
    (h : R2.validate req = some resp) : R2.handle req env = (resp, []) := by
  unfold R2.handle
  rw [h]

theorem OS_handle_of_validate {req : AnalysisRequest} {env : OS.Env} {resp : HttpResponse}
    (h : OS.validate req = some resp) : OS.handle req env = (resp, []) := by
  unfold OS.handle
  rw [h]

/-- The fallback evaluation payload built by `R1` when the evaluation JSON
cannot be parsed. -/
theorem R1_handle_success {req : AnalysisRequest} {env : R1.Env} {content : Option String}
    {d : ExtractData} {qs : List ExtractedQ} {ec : Option String}
    (hv : R1.validate req = none)
    (hvis : env.visionOutcome = .ok content)
    (hp : attemptParse content env.extractParsed = some d)
    (hq : d.questions = some qs) (hne : qs ≠ [])
    (hc : env.chatOutcome = .ok ec) :
    R1.handle req env =
      (.ok (R1.mkResult req.subject (optJN req.maxScore)
        (jnDiv (optJN req.maxScore) (.num qs.length)) env.now d qs
        ((attemptParse ec env.evalParsed).getD
          { questions := some (qs.map fun q =>
              { number := some q.number
                score := jnDiv (jnDiv (optJN req.maxScore) (.num qs.length)) (.num 2)
                correctAnswer := some ""
                feedback := some "Valutazione automatica"
                isCorrect := some false })
            overallFeedback := some "Valutazione completata con valori di default." })),
        [.vision, .chat]) := by
  unfold R1.handle
  simp only [hv, hvis, hp, Option.getD_some, hq, if_neg hne, hc]

theorem R2.continueWith_success {req : AnalysisRequest} {env : R2.Env}
    {d : ExtractData} {qs : List ExtractedQ} {ec : Option String} {calls : List ModelCall}
    (hq : d.questions = some qs) (hne : qs ≠ [])
    (hc : env.chatOutcome = .ok ec) :
    R2.continueWith req env d calls =
      (.ok (R2.mkResult req.subject (optJN req.maxScore)
        (jnDiv (optJN req.maxScore) (.num qs.length)) env.now d qs
        ((attemptParse ec env.evalParsed).getD
          { questions := some (qs.map fun q =>
              { number := some q.number
                score := jnDiv (jnDiv (optJN req.maxScore) (.num qs.length)) (.num 2)
                correctAnswer := some ""
                feedback := some "Valutazione non disponibile"
                isCorrect := some false })
            overallFeedback :=
              some "Non è stato possibile generare una valutazione dettagliata." })),
        calls ++ [.chat]) := by
  unfold R2.continueWith
  simp only [hq, if_neg hne, hc]

theorem R2_handle_success {req : AnalysisRequest} {env : R2.Env} {content : Option String}
    {d : ExtractData} {qs : List ExtractedQ} {ec : Option String}
    (hv : R2.validate req = none)
    (hvis : env.visionOutcome = .ok content)
    (hp : attemptParse content env.extractParsed = some d)
    (hq : d.questions = some qs) (hne : qs ≠ [])
    (hc : env.chatOutcome = .ok ec) :
    R2.handle req env =
      (.ok (R2.mkResult req.subject (optJN req.maxScore)
        (jnDiv (optJN req.maxScore) (.num qs.length)) env.now d qs
        ((attemptParse ec env.evalParsed).getD
          { questions := some (qs.map fun q =>
              { number := some q.number
                score := jnDiv (jnDiv (optJN req.maxScore) (.num qs.length)) (.num 2)
                correctAnswer := some ""
                feedback := some "Valutazione non disponibile"
                isCorrect := some false })
            overallFeedback :=
              some "Non è stato possibile generare una valutazione dettagliata." })),
        [.vision, .chat]) := by
  unfold R2.handle
  simp only [hv, hvis, hp]
  have h4 := @R2.continueWith_success req env d qs ec [.vision] hq hne hc
  simpa using h4

theorem R1_validate_some {req : AnalysisRequest} {resp : HttpResponse}
    (h : R1.validate req = some resp) : ∃ m, resp = .badRequest m := by
  unfold R1.validate at h
  split_ifs at h <;> simp only [Option.some.injEq] at h
  · exact ⟨_, h.symm⟩
  · exact ⟨_, h.symm⟩
  · exact ⟨_, h.symm⟩

theorem R1_handle_ok_inv {req : AnalysisRequest} {env : R1.Env} {r : CorrectionResult}
    {log : List ModelCall} (h : R1.handle req env = (.ok r, log)) :
    ∃ extracted qs evaluation, qs ≠ [] ∧
      r = R1.mkResult req.subject (optJN req.maxScore)
        (jnDiv (optJN req.maxScore) (.num qs.length)) env.now extracted qs evaluation ∧
      log = [.vision, .chat] := by
  unfold R1.handle at h
  cases hval : R1.validate req with
  | some resp =>
    obtain ⟨m, rfl⟩ := R1_validate_some hval
    simp only [hval] at h
    simp at h
  | none =>
    simp only [hval] at h
    cases hvis : env.visionOutcome with
    | error e => simp only [hvis] at h; simp at h
    | ok content =>
      simp only [hvis] at h
      cases hp : attemptParse content env.extractParsed with
      | some d =>
        simp only [hp, Option.getD_some] at h
        cases hq : d.questions with
        | none => simp only [hq] at h; simp at h
        | some qs =>
          simp only [hq] at h
          by_cases hne : qs = []
          · rw [if_pos hne] at h; simp at h
          · rw [if_neg hne] at h
            cases hc : env.chatOutcome with
            | error e => simp only [hc] at h; simp at h
            | ok ec =>
              simp only [hc] at h
              obtain ⟨h1, h2⟩ := Prod.mk.injEq .. |>.mp h
              exact ⟨d, qs, _, hne, (HttpResponse.ok.injEq .. |>.mp h1).symm, h2.symm⟩
      | none =>
        simp only [hp, Option.getD_none] at h
        rw [if_neg (List.cons_ne_nil _ _)] at h
        cases hc : env.chatOutcome with
        | error e => simp only [hc] at h; simp at h
        | ok ec =>
          simp only [hc] at h
          obtain ⟨h1, h2⟩ := Prod.mk.injEq .. |>.mp h
          exact ⟨_, _, _, List.cons_ne_nil _ _,
            (HttpResponse.ok.injEq .. |>.mp h1).symm, h2.symm⟩

theorem R2_validate_some {req : AnalysisRequest} {resp : HttpResponse}
    (h : R2.validate req = some resp) : ∃ m, resp = .badRequest m := by
  unfold R2.validate at h
  split_ifs at h
  · exact ⟨_, (Option.some.injEq .. |>.mp h).symm⟩

theorem R2.continueWith_ok_inv {req : AnalysisRequest} {env : R2.Env} {d : ExtractData}
    {calls log : List ModelCall} {r : CorrectionResult}
    (h : R2.continueWith req env d calls = (.ok r, log)) :
    ∃ qs evaluation, d.questions = some qs ∧ qs ≠ [] ∧
      r = R2.mkResult req.subject (optJN req.maxScore)
        (jnDiv (optJN req.maxScore) (.num qs.length)) env.now d qs evaluation ∧
      log = calls ++ [.chat] := by
  unfold R2.continueWith at h
  cases hq : d.questions with
  | none => simp only [hq] at h; simp at h
  | some qs =>
    simp only [hq] at h
    by_cases hne : qs = []
    · rw [if_pos hne] at h; simp at h
    · rw [if_neg hne] at h
      cases hc : env.chatOutcome with
      | error e => simp only [hc] at h; simp at h
      | ok ec =>
        simp only [hc] at h
        obtain ⟨h1, h2⟩ := Prod.mk.injEq .. |>.mp h
        exact ⟨qs, _, rfl, hne, (HttpResponse.ok.injEq .. |>.mp h1).symm, h2.symm⟩

theorem R2_handle_ok_inv {req : AnalysisRequest} {env : R2.Env} {r : CorrectionResult}
    {log : List ModelCall} (h : R2.handle req env = (.ok r, log)) :
    ∃ extracted qs evaluation, qs ≠ [] ∧
      r = R2.mkResult req.subject (optJN req.maxScore)
        (jnDiv (optJN req.maxScore) (.num qs.length)) env.now extracted qs evaluation := by
  unfold R2.handle at h
  cases hval : R2.validate req with
  | some resp =>
    obtain ⟨m, rfl⟩ := R2_validate_some hval
    simp only [hval] at h
    simp at h
  | none =>
    simp only [hval] at h
    cases hvis : env.visionOutcome with
    | error e => simp only [hvis] at h; simp at h
    | ok content =>
      simp only [hvis] at h
      cases hp : attemptParse content env.extractParsed with
      | some d =>
        simp only [hp] at h
        obtain ⟨qs, evaluation, _, hne, hr, _⟩ := R2.continueWith_ok_inv h
        exact ⟨d, qs, evaluation, hne, hr⟩
      | none =>
        simp only [hp] at h
        cases halt : env.altVisionOutcome with
        | error e => simp only [halt] at h; simp at h
        | ok c2 =>
          simp only [halt] at h
          obtain ⟨qs, evaluation, _, hne, hr, _⟩ := R2.continueWith_ok_inv h
          exact ⟨_, qs, evaluation, hne, hr⟩

theorem R1_mkResult_questions (s : Option String) (mJ cap : JNum) (now : ℕ)
    (e : ExtractData) (qs : List ExtractedQ) (ev : EvalData) :
    (R1.mkResult s mJ cap now e qs ev).questions = R1.finalQuestions cap now qs ev.questions := rfl

theorem R1_mkResult_totalScore (s : Option String) (mJ cap : JNum) (now : ℕ)
    (e : ExtractData) (qs : List ExtractedQ) (ev : EvalData) :
    (R1.mkResult s mJ cap now e qs ev).totalScore =
      jnRound1 (sumScores (R1.mkResult s mJ cap now e qs ev).questions) := rfl

theorem R1_mkResult_percentage (s : Option String) (mJ cap : JNum) (now : ℕ)
    (e : ExtractData) (qs : List ExtractedQ) (ev : EvalData) :
    (R1.mkResult s mJ cap now e qs ev).percentage =
      jnRound1 (jnMul (jnDiv (sumScores (R1.mkResult s mJ cap now e qs ev).questions) mJ)
        (.num 100)) := rfl

theorem R1.mkResult_grade (s : Option String) (mJ cap : JNum) (now : ℕ)
    (e : ExtractData) (qs : List ExtractedQ) (ev : EvalData) :
    (R1.mkResult s mJ cap now e qs ev).grade =
      calculateGrade (jnMul (jnDiv (sumScores (R1.mkResult s mJ cap now e qs ev).questions) mJ)
        (.num 100)) := rfl

theorem R2_mkResult_questions (s : Option String) (mJ cap : JNum) (now : ℕ)
    (e : ExtractData) (qs : List ExtractedQ) (ev : EvalData) :
    (R2.mkResult s mJ cap now e qs ev).questions = R2.finalQuestions cap now qs ev.questions := rfl

theorem R2_mkResult_totalScore (s : Option String) (mJ cap : JNum) (now : ℕ)
    (e : ExtractData) (qs : List ExtractedQ) (ev : EvalData) :
    (R2.mkResult s mJ cap now e qs ev).totalScore =
      jnRound1 (sumScores (R2.mkResult s mJ cap now e qs ev).questions) := rfl

theorem R2_mkResult_percentage (s : Option String) (mJ cap : JNum) (now : ℕ)
    (e : ExtractData) (qs : List ExtractedQ) (ev : EvalData) :
    (R2.mkResult s mJ cap now e qs ev).percentage =
      jnRound1 (jnMul (jnDiv (sumScores (R2.mkResult s mJ cap now e qs ev).questions) mJ)
        (.num 100)) := rfl

-- Grade-scale lemmas.

theorem grade_val (p : ℚ) : calculateGrade (.num p) =
    if 95 ≤ p then "10 eccellente"
    else if 85 ≤ p then "9 distinto"
    else if 75 ≤ p then "8 buono"
    else if 65 ≤ p then "7 discreto"
    else if 55 ≤ p then "6 sufficiente"
    else if 45 ≤ p then "5 insufficiente"
    else if 35 ≤ p then "4 gravemente insufficiente"
    else if 25 ≤ p then "3 molto gravemente insufficiente"
    else "1-2 gravemente insufficiente" := by
  simp only [calculateGrade, jnGe, decide_eq_true_eq]

theorem gradeNumeral_grade (p : ℚ) : gradeNumeral (calculateGrade (.num p)) = numOf p := by
  rw [grade_val]
  unfold numOf
  split_ifs <;> decide

set_option maxHeartbeats 2000000 in
theorem numOf_mono {p q : ℚ} (h : p ≤ q) : numOf p ≤ numOf q := by
  unfold numOf
  split_ifs <;> first | omega | (exfalso; linarith)

-- Reconciliation characterization helpers.

theorem jnOr_self (a : JNum) : jnOr a a = a := by
  unfold jnOr
  split <;> rfl

theorem jnDiv_num {a b : ℚ} (hb : b ≠ 0) : jnDiv (.num a) (.num b) = .num (a / b) := by
  simp [jnDiv, hb]

theorem jnOr_num_right (x : JNum) (y : ℚ) : ∃ z : ℚ, jnOr x (.num y) = .num z := by
  cases x with
  | undef => exact ⟨y, rfl⟩
  | nan => exact ⟨y, rfl⟩
  | num s =>
    by_cases hs : s = 0
    · exact ⟨y, by simp [jnOr, jnTruthy, hs]⟩
    · exact ⟨s, by simp [jnOr, jnTruthy, hs]⟩

theorem clamp_chain {cap : ℚ} (x : JNum) (y : ℚ) (hcap : 0 ≤ cap) :
    ∃ s : ℚ, jnMin (jnMax (.num 0) (jnOr x (.num y))) (.num cap) = .num s ∧
      0 ≤ s ∧ s ≤ cap := by
  obtain ⟨z, hz⟩ := jnOr_num_right x y
  rw [hz]
  exact ⟨min (max 0 z) cap, rfl, le_min (le_max_left _ _) hcap, min_le_right _ _⟩

theorem find?_map_number {qs : List ExtractedQ} {q : ExtractedQ} (hq : q ∈ qs)
    (σ : JNum) (ca fb : Option String) (ic : Option Bool) :
    ∃ e, (qs.map fun p =>
        ({ number := some p.number, score := σ, correctAnswer := ca
           feedback := fb, isCorrect := ic } : Entry)).find?
        (fun eq => eq.number == some q.number) = some e ∧
      e.score = σ ∧ e.correctAnswer = ca ∧ e.isCorrect = ic := by
  cases hf : (qs.map fun p =>
      ({ number := some p.number, score := σ, correctAnswer := ca
         feedback := fb, isCorrect := ic } : Entry)).find?
      (fun eq => eq.number == some q.number) with
  | none =>
    exfalso
    rw [List.find?_eq_none] at hf
    have hmem : ({ number := some q.number, score := σ, correctAnswer := ca
                   feedback := fb, isCorrect := ic } : Entry) ∈
        qs.map fun p =>
          ({ number := some p.number, score := σ, correctAnswer := ca
             feedback := fb, isCorrect := ic } : Entry) :=
      List.mem_map_of_mem _ hq
    exact hf _ hmem (by simp)
  | some e =>
    have he := List.mem_of_find?_eq_some hf
    obtain ⟨p, hp, rfl⟩ := List.mem_map.mp he
    exact ⟨_, rfl, rfl, rfl, rfl⟩

theorem R1.finalQuestions_nan (now : ℕ) (qs : List ExtractedQ)
    (evalQs : Option (List Entry)) :
    ∀ fq ∈ R1.finalQuestions .nan now qs evalQs, fq.score = .nan ∧ fq.maxScore = .nan := by
  intro fq hfq
  unfold R1.finalQuestions at hfq
  obtain ⟨q, hq, j, rfl⟩ := mem_jsMapIdx hfq
  exact ⟨jnMin_nan_right _, rfl⟩

theorem R1_finalQuestions_bounds {cap : ℚ} (hcap : 0 ≤ cap) (now : ℕ)
    (qs : List ExtractedQ) (evalQs : Option (List Entry)) :
    ∀ fq ∈ R1.finalQuestions (.num cap) now qs evalQs,
      fq.maxScore = .num cap ∧ ∃ s : ℚ, fq.score = .num s ∧ 0 ≤ s ∧ s ≤ cap := by
  intro fq hfq
  unfold R1.finalQuestions at hfq
  obtain ⟨q, hq, j, rfl⟩ := mem_jsMapIdx hfq
  refine ⟨rfl, ?_⟩
  have h2 : jnDiv (JNum.num cap) (.num 2) = .num (cap / 2) := jnDiv_num (by norm_num)
  simpa [h2] using clamp_chain _ (cap / 2) hcap

theorem R2_finalQuestions_bounds {cap : ℚ} (hcap : 0 ≤ cap) (now : ℕ)
    (qs : List ExtractedQ) (evalQs : Option (List Entry)) :
    ∀ fq ∈ R2.finalQuestions (.num cap) now qs evalQs,
      fq.maxScore = .num cap ∧ ∃ s : ℚ, fq.score = .num s ∧ 0 ≤ s ∧ s ≤ cap := by
  intro fq hfq
  unfold R2.finalQuestions at hfq
  obtain ⟨q, hq, j, rfl⟩ := mem_jsMapIdx hfq
  exact ⟨rfl, clamp_chain _ 0 hcap⟩


theorem entrySel_find {entries : List Entry} {qnum : ℤ} {index : ℕ} {e : Entry}
    (h : entries.find? (fun eq => eq.number == some qnum) = some e) :
    entrySel (some entries) qnum index = some e := by
  unfold entrySel
  rw [Option.getD_some, h]
  rfl

theorem entrySel_of_find_none {entries : List Entry} {qnum : ℤ} {index : ℕ}
    (h : entries.find? (fun eq => eq.number == some qnum) = none) :
    entrySel (some entries) qnum index = entries[index]? := by
  unfold entrySel
  rw [Option.getD_some, h]
  cases entries[index]? <;> rfl

theorem R1_mkQuestion_of_sel {cap : JNum} {now : ℕ} {evalQs : Option (List Entry)}
    {q : ExtractedQ} {index : ℕ} {e : Entry}
    (hsel : entrySel evalQs q.number index = some e) :
    R1.mkQuestion cap now evalQs q index =
      { id := qid q.number now
        number := q.number
        text := q.text
        studentAnswer := jsOrStr q.studentAnswer ""
        correctAnswer := jsOrStr e.correctAnswer ""
        score := jnMin (jnMax (.num 0) (jnOr e.score (jnDiv cap (.num 2)))) cap
        maxScore := cap
        feedback := jsOrStr e.feedback "Nessun feedback disponibile"
        isCorrect := e.isCorrect.getD (jnGe (jnOr e.score (.num 0)) (jnMul cap (.num (6/10))))
        confirmed := none } := by
  unfold R1.mkQuestion
  rw [hsel]
  rfl

theorem R1_mkQuestion_of_sel_none {cap : JNum} {now : ℕ} {evalQs : Option (List Entry)}
    {q : ExtractedQ} {index : ℕ}
    (hsel : entrySel evalQs q.number index = none) :
    R1.mkQuestion cap now evalQs q index =
      { id := qid q.number now
        number := q.number
        text := q.text
        studentAnswer := jsOrStr q.studentAnswer ""
        correctAnswer := ""
        score := jnMin (jnMax (.num 0) (jnDiv cap (.num 2))) cap
        maxScore := cap
        feedback := "Nessun feedback disponibile"
        isCorrect := jnGe (.num 0) (jnMul cap (.num (6/10)))
        confirmed := none } := by
  unfold R1.mkQuestion
  rw [hsel]
  rfl

theorem R2_mkQuestion_of_sel {cap : JNum} {now : ℕ} {evalQs : Option (List Entry)}
    {q : ExtractedQ} {index : ℕ} {e : Entry}
    (hsel : entrySel evalQs q.number index = some e) :
    R2.mkQuestion cap now evalQs q index =
      { id := qid q.number now
        number := q.number
        text := q.text
        studentAnswer := jsOrStr q.studentAnswer ""
        correctAnswer := jsOrStr e.correctAnswer ""
        score := jnMin (jnMax (.num 0) (jnOr e.score (.num 0))) cap
        maxScore := cap
        feedback := jsOrStr e.feedback "Nessun feedback disponibile"
        isCorrect := e.isCorrect.getD (jnGe e.score (jnMul cap (.num (6/10))))
        confirmed := none } := by
  unfold R2.mkQuestion
  rw [hsel]
  rfl

theorem R2_mkQuestion_of_sel_none {cap : JNum} {now : ℕ} {evalQs : Option (List Entry)}
    {q : ExtractedQ} {index : ℕ}
    (hsel : entrySel evalQs q.number index = none) :
    R2.mkQuestion cap now evalQs q index =
      { id := qid q.number now
        number := q.number
        text := q.text
        studentAnswer := jsOrStr q.studentAnswer ""
        correctAnswer := ""
        score := jnMin (jnMax (.num 0) (jnOr (jnDiv cap (.num 2)) (.num 0))) cap
        maxScore := cap
        feedback := "Nessun feedback"
        isCorrect := false
        confirmed := none } := by
  unfold R2.mkQuestion
  rw [hsel]
  rfl

theorem R1_finalQuestions_fallback {cap : ℚ} (hcap : 0 ≤ cap) (now : ℕ)
    (qs : List ExtractedQ) :
    ∀ fq ∈ R1.finalQuestions (.num cap) now qs
        (some (qs.map fun q =>
          { number := some q.number, score := jnDiv (.num cap) (.num 2)
            correctAnswer := some "", feedback := some "Valutazione automatica"
            isCorrect := some false })),
      fq.score = .num (cap / 2) ∧ fq.correctAnswer = "" ∧ fq.isCorrect = false := by
  intro fq hfq
  unfold R1.finalQuestions at hfq
  obtain ⟨q, hq, j, rfl⟩ := mem_jsMapIdx hfq
  obtain ⟨e, hfind, hsc, hca, hic⟩ :=
    find?_map_number hq (jnDiv (.num cap) (.num 2)) (some "")
      (some "Valutazione automatica") (some false)
  rw [R1_mkQuestion_of_sel (entrySel_find hfind)]
  have h2 : jnDiv (JNum.num cap) (.num 2) = .num (cap / 2) := jnDiv_num (by norm_num)
  refine ⟨?_, ?_, ?_⟩
  · show jnMin (jnMax (.num 0) (jnOr e.score (jnDiv (.num cap) (.num 2)))) (.num cap) =
      .num (cap / 2)
    rw [hsc, h2, jnOr_self]
    show JNum.num (min (max 0 (cap / 2)) cap) = .num (cap / 2)
    rw [max_eq_right (by linarith), min_eq_left (by linarith)]
  · show jsOrStr e.correctAnswer "" = ""
    rw [hca]
    rfl
  · show e.isCorrect.getD _ = false
    rw [hic]
    rfl

theorem R2_finalQuestions_fallback {cap : ℚ} (hcap : 0 ≤ cap) (now : ℕ)
    (qs : List ExtractedQ) :
    ∀ fq ∈ R2.finalQuestions (.num cap) now qs
        (some (qs.map fun q =>
          { number := some q.number, score := jnDiv (.num cap) (.num 2)
            correctAnswer := some "", feedback := some "Valutazione non disponibile"
            isCorrect := some false })),
      fq.score = .num (cap / 2) ∧ fq.correctAnswer = "" ∧ fq.isCorrect = false := by
  intro fq hfq
  unfold R2.finalQuestions at hfq
  obtain ⟨q, hq, j, rfl⟩ := mem_jsMapIdx hfq
  obtain ⟨e, hfind, hsc, hca, hic⟩ :=
    find?_map_number hq (jnDiv (.num cap) (.num 2)) (some "")
      (some "Valutazione non disponibile") (some false)
  rw [R2_mkQuestion_of_sel (entrySel_find hfind)]
  have h2 : jnDiv (JNum.num cap) (.num 2) = .num (cap / 2) := jnDiv_num (by norm_num)
  have hor : jnOr (.num (cap / 2)) (.num 0) = .num (cap / 2) := by
    by_cases hz : cap / 2 = 0
    · rw [jnOr_num, if_pos hz, hz]
    · rw [jnOr_num, if_neg hz]
  refine ⟨?_, ?_, ?_⟩
  · show jnMin (jnMax (.num 0) (jnOr e.score (.num 0))) (.num cap) = .num (cap / 2)
    rw [hsc, h2, hor]
    show JNum.num (min (max 0 (cap / 2)) cap) = .num (cap / 2)
    rw [max_eq_right (by linarith), min_eq_left (by linarith)]
  · show jsOrStr e.correctAnswer "" = ""
    rw [hca]
    rfl
  · show e.isCorrect.getD _ = false
    rw [hic]
    rfl

/-- C5: the Grade Scale is a pure total function on every numeric
percentage: it returns each grade string exactly on the stated threshold
interval, and the numeral component is monotonically non-decreasing in the
percentage. -/
theorem C5_gradeScale :
    (∀ p : ℚ,
      (calculateGrade (.num p) = "10 eccellente" ↔ 95 ≤ p) ∧
      (calculateGrade (.num p) = "9 distinto" ↔ 85 ≤ p ∧ p < 95) ∧
      (calculateGrade (.num p) = "8 buono" ↔ 75 ≤ p ∧ p < 85) ∧
      (calculateGrade (.num p) = "7 discreto" ↔ 65 ≤ p ∧ p < 75) ∧
      (calculateGrade (.num p) = "6 sufficiente" ↔ 55 ≤ p ∧ p < 65) ∧
      (calculateGrade (.num p) = "5 insufficiente" ↔ 45 ≤ p ∧ p < 55) ∧
      (calculateGrade (.num p) = "4 gravemente insufficiente" ↔ 35 ≤ p ∧ p < 45) ∧
      (calculateGrade (.num p) = "3 molto gravemente insufficiente" ↔ 25 ≤ p ∧ p < 35) ∧
      (calculateGrade (.num p) = "1-2 gravemente insufficiente" ↔ p < 25)) ∧
    (∀ p q : ℚ, p ≤ q →
      gradeNumeral (calculateGrade (.num p)) ≤ gradeNumeral (calculateGrade (.num q))) := by
  constructor
  · intro p
    rw [grade_val]
    split_ifs with h1 h2 h3 h4 h5 h6 h7 h8 <;>
      simp only [not_le] at * <;>
      refine ⟨?_, ?_, ?_, ?_, ?_, ?_, ?_, ?_, ?_⟩ <;>
      constructor <;>
      intro hx <;>
      first
        | rfl
        | (exact absurd hx (by decide))
        | linarith
        | (constructor <;> linarith)
  · intro p q h
    rw [gradeNumeral_grade, gradeNumeral_grade]
    exact numOf_mono h

/-- C5 witness: the theorem applied at the concrete percentages 96, 50, 60. -/
theorem C5_gradeScale_w :
    (calculateGrade (.num 96) = "10 eccellente" ↔ 95 ≤ (96 : ℚ)) ∧
    gradeNumeral (calculateGrade (.num 50)) ≤ gradeNumeral (calculateGrade (.num 60)) :=
  ⟨(C5_gradeScale.1 96).1, C5_gradeScale.2 50 60 (by norm_num)⟩

/-- C1 (amended): for every extraction with N >= 1 questions, every
evaluation-entry sequence (or none at all) and every maxScore >= 0, both
two-stage reconciliations produce exactly N questions, each with a numeric
score in [0, maxScore/N] and per-question maxScore field maxScore/N.
(For negative maxScore the clamp violates the lower bound; see the
counterexample.) -/
theorem C1_reconciliationBounds :
    ∀ (m : ℚ), 0 ≤ m → ∀ (now : ℕ) (qs : List ExtractedQ), qs ≠ [] →
      ∀ evalQs : Option (List Entry),
        ((R1.finalQuestions (.num (m / qs.length)) now qs evalQs).length = qs.length ∧
          ∀ fq ∈ R1.finalQuestions (.num (m / qs.length)) now qs evalQs,
            fq.maxScore = .num (m / qs.length) ∧
            ∃ s : ℚ, fq.score = .num s ∧ 0 ≤ s ∧ s ≤ m / qs.length) ∧
        ((R2.finalQuestions (.num (m / qs.length)) now qs evalQs).length = qs.length ∧
          ∀ fq ∈ R2.finalQuestions (.num (m / qs.length)) now qs evalQs,
            fq.maxScore = .num (m / qs.length) ∧
            ∃ s : ℚ, fq.score = .num s ∧ 0 ≤ s ∧ s ≤ m / qs.length) := by
  intro m hm now qs _ evalQs
  have hcap : 0 ≤ m / (qs.length : ℚ) := div_nonneg hm (by positivity)
  exact ⟨⟨jsMapIdx_length _ qs 0, R1_finalQuestions_bounds hcap now qs evalQs⟩,
    ⟨jsMapIdx_length _ qs 0, R2_finalQuestions_bounds hcap now qs evalQs⟩⟩

/-- C1 counterexample: with `maxScore = -10` and one question (so
`maxScore/N = -10`) and no evaluation entries, the reconciled score is
-10, violating `0 ≤ score`. -/
theorem C1_reconciliationBounds_cx :
    ((R2.finalQuestions (.num ((-10 : ℚ) / 1)) 0
        [{ number := 1, text := some "d", studentAnswer := some "r" }]
        (some [])).map (·.score)) = [.num (-10)] ∧ ¬(0 ≤ (-10 : ℚ)) := by
  constructor
  · simp only [R2.finalQuestions, jsMapIdx, List.map_cons, List.map_nil]
    have hsel : entrySel (some ([] : List Entry)) (1 : ℤ) 0 = none := rfl
    rw [R2_mkQuestion_of_sel_none hsel]
    norm_num [jnDiv, jnOr, jnTruthy, jnMax, jnMin]
  · norm_num

/-- C1 witness: the amended theorem applied at `maxScore = 10`, one
question, and an empty entry sequence. -/
theorem C1_reconciliationBounds_w :
    (R1.finalQuestions
        (.num ((10 : ℚ) /
          (List.length [({ number := 1, text := some "t", studentAnswer := some "a" } : ExtractedQ)] : ℚ)))
        3 [{ number := 1, text := some "t", studentAnswer := some "a" }]
        (some [])).length =
      (List.length [({ number := 1, text := some "t", studentAnswer := some "a" } : ExtractedQ)]) :=
  (C1_reconciliationBounds 10 (by norm_num) 3
    [{ number := 1, text := some "t", studentAnswer := some "a" }]
    (by simp) (some [])).1.1

/-- C2 (amended): for positive perQuestionCap, both revisions select the
evaluation entry by number-match first, then positional index, else a
synthesized default; the `part_002` revision clamps the selected entry's
score into [0, cap] (0 stays 0), while the `part_001` revision first
replaces a falsy (0, missing, or non-numeric) score by cap/2; `isCorrect`
defaults to `score >= 0.6 * cap` when not provided, and the synthesized
default is incorrect. -/
theorem C2_entrySelection :
    ∀ (cap : ℚ), 0 < cap → ∀ (t : ℕ) (qs : List ExtractedQ) (entries : List Entry)
      (i : ℕ) (q : ExtractedQ), qs[i]? = some q →
      (((R2.finalQuestions (.num cap) t qs (some entries))[i]?).map (·.score) =
          some (.num (specScoreR2 (specSelect entries q.number i) cap)) ∧
        ((R2.finalQuestions (.num cap) t qs (some entries))[i]?).map (·.isCorrect) =
          some (specIsCorrect (specSelect entries q.number i) cap)) ∧
      (((R1.finalQuestions (.num cap) t qs (some entries))[i]?).map (·.score) =
          some (.num (specScoreR1 (specSelect entries q.number i) cap)) ∧
        ((R1.finalQuestions (.num cap) t qs (some entries))[i]?).map (·.isCorrect) =
          some (specIsCorrect (specSelect entries q.number i) cap)) := by
  intro cap hcap t qs entries i q hi
  have hR2idx : (R2.finalQuestions (.num cap) t qs (some entries))[i]? =
      some (R2.mkQuestion (.num cap) t (some entries) q i) := by
    unfold R2.finalQuestions
    rw [jsMapIdx_getElem?, hi]
    simp
  have hR1idx : (R1.finalQuestions (.num cap) t qs (some entries))[i]? =
      some (R1.mkQuestion (.num cap) t (some entries) q i) := by
    unfold R1.finalQuestions
    rw [jsMapIdx_getElem?, hi]
    simp
  have hselspec : entrySel (some entries) q.number i = specSelect entries q.number i := by
    unfold entrySel specSelect
    rw [Option.getD_some]
    cases hfind : entries.find? (fun eq => eq.number == some q.number) with
    | some e => rfl
    | none => cases entries[i]? <;> rfl
  have h2 : jnDiv (JNum.num cap) (.num 2) = .num (cap / 2) := jnDiv_num (by norm_num)
  have hmul : jnMul (JNum.num cap) (.num (6/10)) = .num (cap * (6/10)) := rfl
  have hge0 : jnGe (.num 0) (.num (cap * (6/10))) = false := by
    simp only [jnGe, decide_eq_false_iff_not, not_le]
    nlinarith
  rw [hR2idx, hR1idx]
  cases hsel : specSelect entries q.number i with
  | none =>
    have hsel' : entrySel (some entries) q.number i = none := hselspec.trans hsel
    rw [R2_mkQuestion_of_sel_none hsel', R1_mkQuestion_of_sel_none hsel']
    have hz : cap / 2 ≠ 0 := by positivity
    refine ⟨⟨?_, ?_⟩, ?_, ?_⟩
    · show some (jnMin (jnMax (.num 0) (jnOr (jnDiv (.num cap) (.num 2)) (.num 0))) (.num cap)) = _
      rw [h2, jnOr_num, if_neg hz]
      rfl
    · rfl
    · show some (jnMin (jnMax (.num 0) (jnDiv (.num cap) (.num 2))) (.num cap)) = _
      rw [h2]
      rfl
    · show some (jnGe (.num 0) (jnMul (.num cap) (.num (6/10)))) = _
      rw [hmul, hge0]
      rfl
  | some e =>
    have hsel' : entrySel (some entries) q.number i = some e := hselspec.trans hsel
    rw [R2_mkQuestion_of_sel hsel', R1_mkQuestion_of_sel hsel']
    cases hes : e.score with
    | undef =>
      refine ⟨⟨?_, ?_⟩, ?_, ?_⟩
      · show some (jnMin (jnMax (.num 0) (jnOr JNum.undef (.num 0))) (.num cap)) =
          some (.num (specScoreR2 (some e) cap))
        simp only [specScoreR2, hes]
        rfl
      · show some (e.isCorrect.getD (jnGe JNum.undef (jnMul (.num cap) (.num (6/10))))) =
          some (specIsCorrect (some e) cap)
        simp only [specIsCorrect, hes]
        rfl
      · show some (jnMin (jnMax (.num 0) (jnOr JNum.undef (jnDiv (.num cap) (.num 2)))) (.num cap)) =
          some (.num (specScoreR1 (some e) cap))
        rw [h2]
        simp only [specScoreR1, hes]
        rfl
      · show some (e.isCorrect.getD (jnGe (jnOr JNum.undef (.num 0)) (jnMul (.num cap) (.num (6/10))))) =
          some (specIsCorrect (some e) cap)
        rw [hmul]
        simp only [jnOr_undef, hge0, specIsCorrect, hes]
    | nan =>
      refine ⟨⟨?_, ?_⟩, ?_, ?_⟩
      · show some (jnMin (jnMax (.num 0) (jnOr JNum.nan (.num 0))) (.num cap)) =
          some (.num (specScoreR2 (some e) cap))
        simp only [specScoreR2, hes]
        rfl
      · show some (e.isCorrect.getD (jnGe JNum.nan (jnMul (.num cap) (.num (6/10))))) =
          some (specIsCorrect (some e) cap)
        simp only [specIsCorrect, hes]
        rfl
      · show some (jnMin (jnMax (.num 0) (jnOr JNum.nan (jnDiv (.num cap) (.num 2)))) (.num cap)) =
          some (.num (specScoreR1 (some e) cap))
        rw [h2]
        simp only [specScoreR1, hes]
        rfl
      · show some (e.isCorrect.getD (jnGe (jnOr JNum.nan (.num 0)) (jnMul (.num cap) (.num (6/10))))) =
          some (specIsCorrect (some e) cap)
        rw [hmul]
        simp only [jnOr_nan, hge0, specIsCorrect, hes]
    | num sc =>
      by_cases hsc : sc = 0
      · subst hsc
        refine ⟨⟨?_, ?_⟩, ?_, ?_⟩
        · show some (jnMin (jnMax (.num 0) (jnOr (JNum.num 0) (.num 0))) (.num cap)) =
            some (.num (specScoreR2 (some e) cap))
          rw [jnOr_num, if_pos rfl]
          simp only [specScoreR2, hes]
          rfl
        · show some (e.isCorrect.getD (jnGe (JNum.num 0) (jnMul (.num cap) (.num (6/10))))) =
            some (specIsCorrect (some e) cap)
          rw [hmul]
          simp only [specIsCorrect, hes]
          rfl
        · show some (jnMin (jnMax (.num 0) (jnOr (JNum.num 0) (jnDiv (.num cap) (.num 2)))) (.num cap)) =
            some (.num (specScoreR1 (some e) cap))
          rw [h2, jnOr_num, if_pos rfl]
          simp only [specScoreR1, hes, if_pos rfl]
          rfl
        · show some (e.isCorrect.getD (jnGe (jnOr (JNum.num 0) (.num 0)) (jnMul (.num cap) (.num (6/10))))) =
            some (specIsCorrect (some e) cap)
          rw [hmul, jnOr_num, if_pos rfl]
          simp only [specIsCorrect, hes]
          rfl
      · refine ⟨⟨?_, ?_⟩, ?_, ?_⟩
        · show some (jnMin (jnMax (.num 0) (jnOr (JNum.num sc) (.num 0))) (.num cap)) =
            some (.num (specScoreR2 (some e) cap))
          rw [jnOr_num, if_neg hsc]
          simp only [specScoreR2, hes]
          rfl
        · show some (e.isCorrect.getD (jnGe (JNum.num sc) (jnMul (.num cap) (.num (6/10))))) =
            some (specIsCorrect (some e) cap)
          rw [hmul]
          simp only [specIsCorrect, hes]
          rfl
        · show some (jnMin (jnMax (.num 0) (jnOr (JNum.num sc) (jnDiv (.num cap) (.num 2)))) (.num cap)) =
            some (.num (specScoreR1 (some e) cap))
          rw [h2, jnOr_num, if_neg hsc]
          simp only [specScoreR1, hes, if_neg hsc]
          rfl
        · show some (e.isCorrect.getD (jnGe (jnOr (JNum.num sc) (.num 0)) (jnMul (.num cap) (.num (6/10))))) =
            some (specIsCorrect (some e) cap)
          rw [hmul, jnOr_num, if_neg hsc]
          simp only [specIsCorrect, hes]
          rfl

/-- C2 counterexample: in the `part_001` revision, an evaluation entry that
explicitly provides score 0 (entry number matching question number 1,
perQuestionCap 4) yields a final score of cap/2 = 2, not 0: the claim that
a provided score of 0 stays 0 fails on that revision. -/
theorem C2_entrySelection_cx :
    ((R1.finalQuestions (.num 4) 0
        [{ number := 1, text := some "d", studentAnswer := some "r" }]
        (some [{ number := some 1, score := .num 0, correctAnswer := some "x"
                 feedback := some "f", isCorrect := some false }])).map (·.score)) =
      [.num 2] ∧ (2 : ℚ) ≠ 0 := by
  constructor
  · simp only [R1.finalQuestions, jsMapIdx, List.map_cons, List.map_nil]
    have hfind : ([{ number := some 1, score := JNum.num 0, correctAnswer := some "x"
                     feedback := some "f", isCorrect := some false }] : List Entry).find?
        (fun eq => eq.number == some (1 : ℤ)) =
        some { number := some 1, score := .num 0, correctAnswer := some "x"
               feedback := some "f", isCorrect := some false } := rfl
    rw [R1_mkQuestion_of_sel (entrySel_find hfind)]
    norm_num [jnDiv, jnOr, jnTruthy, jnMax, jnMin]
  · norm_num

/-- C2 witness: the amended theorem applied at cap 4, one question numbered
1, one matching entry with score 3. -/
theorem C2_entrySelection_w :
    ((R2.finalQuestions (.num 4) 0
        [{ number := 1, text := some "d", studentAnswer := some "r" }]
        (some [{ number := some 1, score := .num 3, correctAnswer := some "x"
                 feedback := some "f", isCorrect := some true }]))[0]?).map (·.score) =
      some (.num (specScoreR2 (specSelect
        [{ number := some 1, score := .num 3, correctAnswer := some "x"
           feedback := some "f", isCorrect := some true }] (1 : ℤ) 0) 4)) :=
  ((C2_entrySelection 4 (by norm_num) 0
    [{ number := 1, text := some "d", studentAnswer := some "r" }]
    [{ number := some 1, score := .num 3, correctAnswer := some "x"
       feedback := some "f", isCorrect := some true }] 0
    { number := 1, text := some "d", studentAnswer := some "r" } rfl).1).1

/-- C8 (amended): within a report, each question id is the string
`q-<number>-<timestamp>`; questions with pairwise distinct numbers get
pairwise distinct ids, but two questions with the same model-supplied
number (and the single report timestamp) collide — ids are NOT
unconditionally unique. -/
theorem C8_questionIds :
    (∀ (cap : JNum) (t : ℕ) (qs : List ExtractedQ) (evalQs : Option (List Entry))
      (i : ℕ) (q : ExtractedQ), qs[i]? = some q →
        ((R1.finalQuestions cap t qs evalQs)[i]?).map (·.id) = some (qid q.number t) ∧
        ((R2.finalQuestions cap t qs evalQs)[i]?).map (·.id) = some (qid q.number t)) ∧
    (∀ (cap : JNum) (t : ℕ) (qs : List ExtractedQ) (evalQs : Option (List Entry)),
      (qs.map (·.number)).Nodup →
        ((R1.finalQuestions cap t qs evalQs).map (·.id)).Nodup ∧
        ((R2.finalQuestions cap t qs evalQs).map (·.id)).Nodup) := by
  constructor
  · intro cap t qs evalQs i q hi
    constructor
    · show ((jsMapIdx (R1.mkQuestion cap t evalQs) qs 0)[i]?).map (·.id) = _
      rw [jsMapIdx_getElem?, hi]
      rfl
    · show ((jsMapIdx (R2.mkQuestion cap t evalQs) qs 0)[i]?).map (·.id) = _
      rw [jsMapIdx_getElem?, hi]
      rfl
  · intro cap t qs evalQs hnodup
    have hinj : Function.Injective (fun n : ℤ => qid n t) := fun a b hab => qid_inj_left a b hab
    constructor
    · have hmap : (R1.finalQuestions cap t qs evalQs).map (·.id) =
          qs.map (fun q => qid q.number t) :=
        jsMapIdx_map (R1.mkQuestion cap t evalQs) (fun x => x.id)
          (fun q => qid q.number t) (fun a j => rfl) qs 0
      rw [hmap]
      have : qs.map (fun q => qid q.number t) = (qs.map (·.number)).map (fun n => qid n t) := by
        rw [List.map_map]
        rfl
      rw [this]
      exact hnodup.map hinj
    · have hmap : (R2.finalQuestions cap t qs evalQs).map (·.id) =
          qs.map (fun q => qid q.number t) :=
        jsMapIdx_map (R2.mkQuestion cap t evalQs) (fun x => x.id)
          (fun q => qid q.number t) (fun a j => rfl) qs 0
      rw [hmap]
      have : qs.map (fun q => qid q.number t) = (qs.map (·.number)).map (fun n => qid n t) := by
        rw [List.map_map]
        rfl
      rw [this]
      exact hnodup.map hinj

/-- C8 counterexample: two extracted questions that share the
model-supplied number 1 receive the SAME id `q-1-<t>`, so the report's ids
are not pairwise distinct. -/
theorem C8_questionIds_cx :
    ¬ ((R1.finalQuestions (.num 10) 0
        [{ number := 1, text := some "a", studentAnswer := some "x" },
         { number := 1, text := some "b", studentAnswer := some "y" }]
        none).map (·.id)).Nodup := by
  intro h
  have h2 : ((R1.finalQuestions (.num 10) 0
      [{ number := 1, text := some "a", studentAnswer := some "x" },
       { number := 1, text := some "b", studentAnswer := some "y" }]
      none).map (·.id)) = [qid 1 0, qid 1 0] := rfl
  rw [h2] at h
  exact (List.nodup_cons.mp h).1 (List.mem_cons_self _ _)

/-- C8 witness: the amended theorem applied to two questions with distinct
numbers 1 and 2. -/
theorem C8_questionIds_w :
    ((R1.finalQuestions (.num 10) 7
        [{ number := 1, text := some "a", studentAnswer := some "x" },
         { number := 2, text := some "b", studentAnswer := some "y" }]
        none).map (·.id)).Nodup :=
  ((C8_questionIds.2 (.num 10) 7
    [{ number := 1, text := some "a", studentAnswer := some "x" },
     { number := 2, text := some "b", studentAnswer := some "y" }]
    none (by decide)).1)

/-- C7: a request with absent or empty image, subject, or testType gets an
HTTP 400 with an empty model-call log (no outbound call at all), in all
three revisions. -/
theorem C7_validation :
    ∀ (req : AnalysisRequest) (env1 : R1.Env) (env2 : R2.Env) (env3 : OS.Env),
      (strFalsy req.image || strFalsy req.subject || strFalsy req.testType) = true →
      (∃ m, R1.handle req env1 = (.badRequest m, [])) ∧
      (∃ m, R2.handle req env2 = (.badRequest m, [])) ∧
      (∃ m, OS.handle req env3 = (.badRequest m, [])) := by
  intro req env1 env2 env3 h
  obtain ⟨m1, h1⟩ := R1_validate_falsy h
  obtain ⟨m2, h2⟩ := R2_validate_falsy h
  obtain ⟨m3, h3⟩ := OS_validate_falsy h
  exact ⟨⟨m1, R1_handle_of_validate h1⟩, ⟨m2, R2_handle_of_validate h2⟩,
    ⟨m3, OS_handle_of_validate h3⟩⟩

/-- C7 witness: the theorem applied to a request with no image field. -/
theorem C7_validation_w :
    (∃ m, R1.handle noImageReq idleEnv1 = (.badRequest m, [])) ∧
    (∃ m, R2.handle noImageReq idleEnv2 = (.badRequest m, [])) ∧
    (∃ m, OS.handle noImageReq idleEnv3 = (.badRequest m, [])) :=
  C7_validation noImageReq idleEnv1 idleEnv2 idleEnv3 (by decide)

/-- C6 (amended): when the extraction payload has a missing or empty
questions array (even after fallback), the request gets an HTTP 400 and the
evaluation stage is never invoked; in `part_001` no second model call is
made at all, while in `part_002` a failed extraction parse triggers one
extra vision call before the 400 — but never a chat (evaluation) call. -/
theorem C6_noQuestions :
    (∀ (req : AnalysisRequest) (env : R1.Env) (content : Option String) (d : ExtractData),
      R1.validate req = none →
      env.visionOutcome = .ok content →
      attemptParse content env.extractParsed = some d →
      (d.questions = none ∨ d.questions = some []) →
      R1.handle req env =
        (.badRequest ("Non sono riuscito a identificare domande nella verifica. " ++
          "Assicurati che l\x27immagine sia chiara e leggibile."), [.vision]) ∧
        ModelCall.chat ∉ (R1.handle req env).2) ∧
    (∀ (req : AnalysisRequest) (env : R2.Env) (content : Option String) (d : ExtractData),
      R2.validate req = none →
      env.visionOutcome = .ok content →
      attemptParse content env.extractParsed = some d →
      (d.questions = none ∨ d.questions = some []) →
      R2.handle req env =
        (.badRequest ("Non sono riuscito a identificare domande nella verifica. " ++
          "Assicurati che l\x27immagine sia chiara e leggibile."), [.vision]) ∧
        ModelCall.chat ∉ (R2.handle req env).2) ∧
    (∀ (req : AnalysisRequest) (env : R2.Env) (content c2 : Option String),
      R2.validate req = none →
      env.visionOutcome = .ok content →
      attemptParse content env.extractParsed = none →
      env.altVisionOutcome = .ok c2 →
      env.altQuestions = [] →
      R2.handle req env =
        (.badRequest ("Non sono riuscito a identificare domande nella verifica. " ++
          "Assicurati che l\x27immagine sia chiara e leggibile."), [.vision, .vision]) ∧
        ModelCall.chat ∉ (R2.handle req env).2) := by
  refine ⟨?_, ?_, ?_⟩
  · intro req env content d hv hvis hp hq
    have hh : R1.handle req env =
        (.badRequest ("Non sono riuscito a identificare domande nella verifica. " ++
          "Assicurati che l\x27immagine sia chiara e leggibile."), [.vision]) := by
      unfold R1.handle
      rcases hq with hq | hq <;>
        (simp only [hv, hvis, hp, Option.getD_some, hq]; try rfl)
    exact ⟨hh, by rw [hh]; simp⟩
  · intro req env content d hv hvis hp hq
    have hh : R2.handle req env =
        (.badRequest ("Non sono riuscito a identificare domande nella verifica. " ++
          "Assicurati che l\x27immagine sia chiara e leggibile."), [.vision]) := by
      unfold R2.handle R2.continueWith
      rcases hq with hq | hq <;>
        (simp only [hv, hvis, hp, hq]; try rfl)
    exact ⟨hh, by rw [hh]; simp⟩
  · intro req env content c2 hv hvis hp halt haltq
    have hh : R2.handle req env =
        (.badRequest ("Non sono riuscito a identificare domande nella verifica. " ++
          "Assicurati che l\x27immagine sia chiara e leggibile."), [.vision, .vision]) := by
      unfold R2.handle R2.continueWith
      simp only [hv, hvis, hp, halt, haltq, if_true]
    exact ⟨hh, by rw [hh]; simp⟩

/-- C6 counterexample: a run of `part_002` in which extraction yields no
questions even after the fallback, the response is 400, and TWO model calls
were made — refuting the claim's "no second model call is made". -/
theorem C6_noQuestions_cx :
    R2.handle reqTen c6env =
      (.badRequest ("Non sono riuscito a identificare domande nella verifica. " ++
        "Assicurati che l\x27immagine sia chiara e leggibile."), [.vision, .vision]) ∧
    (R2.handle reqTen c6env).2.length = 2 := by
  constructor
  · rfl
  · rfl

/-- C6 witness: the amended theorem applied to a parsed-but-empty
extraction payload under `part_001`. -/
theorem C6_noQuestions_w :
    R1.handle reqTen
        { visionOutcome := .ok (some "{e}"), extractParsed := some { studentName := some "", questions := some [] }
          chatOutcome := .ok none, evalParsed := none, now := 0 } =
      (.badRequest ("Non sono riuscito a identificare domande nella verifica. " ++
        "Assicurati che l\x27immagine sia chiara e leggibile."), [.vision]) ∧
      ModelCall.chat ∉ (R1.handle reqTen
        { visionOutcome := .ok (some "{e}"), extractParsed := some { studentName := some "", questions := some [] }
          chatOutcome := .ok none, evalParsed := none, now := 0 }).2 :=
  C6_noQuestions.1 reqTen
    { visionOutcome := .ok (some "{e}"), extractParsed := some { studentName := some "", questions := some [] }
      chatOutcome := .ok none, evalParsed := none, now := 0 }
    (some "{e}") { studentName := some "", questions := some [] }
    (by decide) rfl (by decide) (Or.inr rfl)

/-- C3: when the evaluation model's output contains no parseable JSON, the
fallback evaluation scores every question exactly perQuestionCap/2 with
empty correctAnswer and isCorrect = false, and the request completes with
HTTP 200 and totalScore exactly half of maxScore — in both two-stage
revisions. -/
theorem C3_evalParseFallback :
    (∀ (req : AnalysisRequest) (env : R1.Env) (m : ℕ) (content : Option String)
       (d : ExtractData) (qs : List ExtractedQ) (ec : Option String),
      R1.validate req = none →
      req.maxScore = some (m : ℚ) →
      env.visionOutcome = .ok content →
      attemptParse content env.extractParsed = some d →
      d.questions = some qs → qs ≠ [] →
      env.chatOutcome = .ok ec →
      attemptParse ec env.evalParsed = none →
      ∃ r, R1.handle req env = (.ok r, [.vision, .chat]) ∧
        r.questions.length = qs.length ∧
        (∀ fq ∈ r.questions,
          fq.score = .num ((m : ℚ) / qs.length / 2) ∧ fq.correctAnswer = "" ∧
          fq.isCorrect = false) ∧
        r.totalScore = .num ((m : ℚ) / 2)) ∧
    (∀ (req : AnalysisRequest) (env : R2.Env) (m : ℕ) (content : Option String)
       (d : ExtractData) (qs : List ExtractedQ) (ec : Option String),
      R2.validate req = none →
      req.maxScore = some (m : ℚ) →
      env.visionOutcome = .ok content →
      attemptParse content env.extractParsed = some d →
      d.questions = some qs → qs ≠ [] →
      env.chatOutcome = .ok ec →
      attemptParse ec env.evalParsed = none →
      ∃ r, R2.handle req env = (.ok r, [.vision, .chat]) ∧
        r.questions.length = qs.length ∧
        (∀ fq ∈ r.questions,
          fq.score = .num ((m : ℚ) / qs.length / 2) ∧ fq.correctAnswer = "" ∧
          fq.isCorrect = false) ∧
        r.totalScore = .num ((m : ℚ) / 2)) := by
  constructor
  · intro req env m content d qs ec hv hm hvis hp hq hne hc hep
    have hh := R1_handle_success hv hvis hp hq hne hc
    rw [hep, Option.getD_none] at hh
    have hNpos : 0 < qs.length := List.length_pos.mpr hne
    have hN : ((qs.length : ℚ)) ≠ 0 := by exact_mod_cast hNpos.ne'
    have hcap : jnDiv (optJN req.maxScore) (.num qs.length) = .num ((m : ℚ) / qs.length) := by
      rw [hm]
      exact jnDiv_num hN
    rw [hcap] at hh
    have hcap0 : 0 ≤ (m : ℚ) / qs.length := by positivity
    have hall := R1_finalQuestions_fallback hcap0 env.now qs
    refine ⟨_, hh, jsMapIdx_length _ qs 0, fun fq hfq => ?_, ?_⟩
    · obtain ⟨hs, hca, hic⟩ := hall fq hfq
      exact ⟨hs, hca, hic⟩
    · rw [R1_mkResult_totalScore]
      have hscores : ∀ fq ∈ (R1.mkResult req.subject (optJN req.maxScore)
          (.num ((m : ℚ) / qs.length)) env.now d qs
          { questions := some (qs.map fun q =>
              { number := some q.number
                score := jnDiv (.num ((m : ℚ) / qs.length)) (.num 2)
                correctAnswer := some ""
                feedback := some "Valutazione automatica"
                isCorrect := some false })
            overallFeedback := some "Valutazione completata con valori di default." }).questions,
          fq.score = .num ((m : ℚ) / qs.length / 2) := fun fq hfq => (hall fq hfq).1
      rw [sumScores_const hscores]
      have hlen : (R1.mkResult req.subject (optJN req.maxScore)
          (.num ((m : ℚ) / qs.length)) env.now d qs
          { questions := some (qs.map fun q =>
              { number := some q.number
                score := jnDiv (.num ((m : ℚ) / qs.length)) (.num 2)
                correctAnswer := some ""
                feedback := some "Valutazione automatica"
                isCorrect := some false })
            overallFeedback := some "Valutazione completata con valori di default." }).questions.length =
          qs.length := jsMapIdx_length _ qs 0
      rw [hlen]
      have heq : (qs.length : ℚ) * ((m : ℚ) / qs.length / 2) = (m : ℚ) / 2 := by
        field_simp
        ring
      rw [heq]
      show JNum.num (round1 ((m : ℚ) / 2)) = .num ((m : ℚ) / 2)
      rw [round1_eq_self (5 * m) (by push_cast; ring)]
  · intro req env m content d qs ec hv hm hvis hp hq hne hc hep
    have hh := R2_handle_success hv hvis hp hq hne hc
    rw [hep, Option.getD_none] at hh
    have hNpos : 0 < qs.length := List.length_pos.mpr hne
    have hN : ((qs.length : ℚ)) ≠ 0 := by exact_mod_cast hNpos.ne'
    have hcap : jnDiv (optJN req.maxScore) (.num qs.length) = .num ((m : ℚ) / qs.length) := by
      rw [hm]
      exact jnDiv_num hN
    rw [hcap] at hh
    have hcap0 : 0 ≤ (m : ℚ) / qs.length := by positivity
    have hall := R2_finalQuestions_fallback hcap0 env.now qs
    refine ⟨_, hh, jsMapIdx_length _ qs 0, fun fq hfq => ?_, ?_⟩
    · obtain ⟨hs, hca, hic⟩ := hall fq hfq
      exact ⟨hs, hca, hic⟩
    · rw [R2_mkResult_totalScore]
      have hscores : ∀ fq ∈ (R2.mkResult req.subject (optJN req.maxScore)
          (.num ((m : ℚ) / qs.length)) env.now d qs
          { questions := some (qs.map fun q =>
              { number := some q.number
                score := jnDiv (.num ((m : ℚ) / qs.length)) (.num 2)
                correctAnswer := some ""
                feedback := some "Valutazione non disponibile"
                isCorrect := some false })
            overallFeedback :=
              some "Non è stato possibile generare una valutazione dettagliata." }).questions,
          fq.score = .num ((m : ℚ) / qs.length / 2) := fun fq hfq => (hall fq hfq).1
      rw [sumScores_const hscores]
      have hlen : (R2.mkResult req.subject (optJN req.maxScore)
          (.num ((m : ℚ) / qs.length)) env.now d qs
          { questions := some (qs.map fun q =>
              { number := some q.number
                score := jnDiv (.num ((m : ℚ) / qs.length)) (.num 2)
                correctAnswer := some ""
                feedback := some "Valutazione non disponibile"
                isCorrect := some false })
            overallFeedback :=
              some "Non è stato possibile generare una valutazione dettagliata." }).questions.length =
          qs.length := jsMapIdx_length _ qs 0
      rw [hlen]
      have heq : (qs.length : ℚ) * ((m : ℚ) / qs.length / 2) = (m : ℚ) / 2 := by
        field_simp
        ring
      rw [heq]
      show JNum.num (round1 ((m : ℚ) / 2)) = .num ((m : ℚ) / 2)
      rw [round1_eq_self (5 * m) (by push_cast; ring)]

/-- C3 witness: the theorem applied to a concrete request (maxScore 10, two
extracted questions) whose evaluation output is plain prose. -/
theorem C3_evalParseFallback_w :
    ∃ r, R1.handle reqTen c3env1 = (.ok r, [.vision, .chat]) ∧
      r.questions.length =
        (List.length [({ number := 1, text := some "Capitale?", studentAnswer := some "Roma" } : ExtractedQ),
          { number := 2, text := some "Fiume?", studentAnswer := some "Po" }]) ∧
      (∀ fq ∈ r.questions,
        fq.score = .num (((10 : ℕ) : ℚ) /
          (List.length [({ number := 1, text := some "Capitale?", studentAnswer := some "Roma" } : ExtractedQ),
            { number := 2, text := some "Fiume?", studentAnswer := some "Po" }]) / 2) ∧
        fq.correctAnswer = "" ∧ fq.isCorrect = false) ∧
      r.totalScore = .num (((10 : ℕ) : ℚ) / 2) :=
  C3_evalParseFallback.1 reqTen c3env1 10 (some "{x}")
    { studentName := some "Mario"
      questions := some [{ number := 1, text := some "Capitale?", studentAnswer := some "Roma" },
        { number := 2, text := some "Fiume?", studentAnswer := some "Po" }] }
    [{ number := 1, text := some "Capitale?", studentAnswer := some "Roma" },
     { number := 2, text := some "Fiume?", studentAnswer := some "Po" }]
    (some "Mi dispiace, non posso produrre JSON.")
    (by decide) (by norm_num [reqTen]) rfl (by decide) rfl (by decide) rfl (by decide)

/-- C9: no revision validates maxScore — a request with the other three
fields present but maxScore absent passes validation in all three
revisions; on the two-stage success path the per-question maxScore and
score, the totalScore and the percentage of the resulting report are all
NaN rather than an error. -/
theorem C9_noMaxScoreValidation :
    (∀ req : AnalysisRequest, strFalsy req.image = false → strFalsy req.subject = false →
      strFalsy req.testType = false →
      R1.validate req = none ∧ R2.validate req = none ∧ OS.validate req = none) ∧
    (∀ (req : AnalysisRequest) (env : R1.Env) (content : Option String)
       (d : ExtractData) (qs : List ExtractedQ) (ec : Option String),
      R1.validate req = none →
      req.maxScore = none →
      env.visionOutcome = .ok content →
      attemptParse content env.extractParsed = some d →
      d.questions = some qs → qs ≠ [] →
      env.chatOutcome = .ok ec →
      ∃ r, R1.handle req env = (.ok r, [.vision, .chat]) ∧
        (∀ fq ∈ r.questions, fq.score = .nan ∧ fq.maxScore = .nan) ∧
        r.totalScore = .nan ∧ r.percentage = .nan) := by
  constructor
  · intro req h1 h2 h3
    exact ⟨R1_validate_ok h1 h2 h3, R2_validate_ok h1 h2 h3, OS_validate_ok h1 h2 h3⟩
  · intro req env content d qs ec hv hm hvis hp hq hne hc
    have hh := R1_handle_success hv hvis hp hq hne hc
    have hcap : jnDiv (optJN req.maxScore) (.num qs.length) = .nan := by
      rw [hm]
      rfl
    rw [hcap] at hh
    refine ⟨_, hh, ?_, ?_, ?_⟩
    · intro fq hfq
      exact R1.finalQuestions_nan env.now qs _ fq hfq
    · rw [R1_mkResult_totalScore]
      have hall : ∀ fq ∈ (R1.mkResult req.subject (optJN req.maxScore) .nan env.now d qs
          ((attemptParse ec env.evalParsed).getD
            { questions := some (qs.map fun q =>
                { number := some q.number
                  score := jnDiv JNum.nan (.num 2)
                  correctAnswer := some ""
                  feedback := some "Valutazione automatica"
                  isCorrect := some false })
              overallFeedback := some "Valutazione completata con valori di default." })).questions,
          fq.score = .nan := fun fq hfq => (R1.finalQuestions_nan env.now qs _ fq hfq).1
      have hlen : (R1.mkResult req.subject (optJN req.maxScore) .nan env.now d qs
          ((attemptParse ec env.evalParsed).getD
            { questions := some (qs.map fun q =>
                { number := some q.number
                  score := jnDiv JNum.nan (.num 2)
                  correctAnswer := some ""
                  feedback := some "Valutazione automatica"
                  isCorrect := some false })
              overallFeedback :=
                some "Valutazione completata con valori di default." })).questions.length =
          qs.length := jsMapIdx_length _ qs 0
      have hne' : (R1.mkResult req.subject (optJN req.maxScore) .nan env.now d qs
          ((attemptParse ec env.evalParsed).getD
            { questions := some (qs.map fun q =>
                { number := some q.number
                  score := jnDiv JNum.nan (.num 2)
                  correctAnswer := some ""
                  feedback := some "Valutazione automatica"
                  isCorrect := some false })
              overallFeedback := some "Valutazione completata con valori di default." })).questions ≠ [] := by
        intro hnil
        rw [hnil] at hlen
        exact hne (List.length_eq_zero.mp hlen.symm)
      rw [sumScores_nan hall hne']
      rfl
    · rw [R1_mkResult_percentage, hm]
      have hopt : optJN none = JNum.undef := rfl
      have hdiv : ∀ x, jnDiv x JNum.undef = JNum.nan := by intro x; cases x <;> rfl
      rw [hopt, hdiv]
      rfl

/-- C9 witness: the theorem applied to a concrete request with no maxScore
field. -/
theorem C9_noMaxScoreValidation_w :
    ∃ r, R1.handle noMaxReq c3env1 = (.ok r, [.vision, .chat]) ∧
      (∀ fq ∈ r.questions, fq.score = .nan ∧ fq.maxScore = .nan) ∧
      r.totalScore = .nan ∧ r.percentage = .nan :=
  C9_noMaxScoreValidation.2 noMaxReq c3env1 (some "{x}")
    { studentName := some "Mario"
      questions := some [{ number := 1, text := some "Capitale?", studentAnswer := some "Roma" },
        { number := 2, text := some "Fiume?", studentAnswer := some "Po" }] }
    [{ number := 1, text := some "Capitale?", studentAnswer := some "Roma" },
     { number := 2, text := some "Fiume?", studentAnswer := some "Po" }]
    (some "Mi dispiace, non posso produrre JSON.")
    (by decide) rfl rfl (by decide) rfl (by decide) rfl


/-- C4 (amended): in both two-stage revisions, every successful report has
totalScore = round1(sum of clamped per-question scores) and percentage =
round1(sum/maxScore*100); the end-to-end scenario (two questions scored 3
and 4 of maxScore 10) gives 7.0, 70.0 and grade "7 discreto".  In the
single-shot revision this fails when the model supplies its own truthy
totalScore (see the counterexample). -/
theorem C4_totals :
    (∀ (req : AnalysisRequest) (env : R1.Env) (r : CorrectionResult) (log : List ModelCall),
      R1.handle req env = (.ok r, log) →
      r.totalScore = jnRound1 (sumScores r.questions) ∧
      r.percentage =
        jnRound1 (jnMul (jnDiv (sumScores r.questions) (optJN req.maxScore)) (.num 100))) ∧
    (∀ (req : AnalysisRequest) (env : R2.Env) (r : CorrectionResult) (log : List ModelCall),
      R2.handle req env = (.ok r, log) →
      r.totalScore = jnRound1 (sumScores r.questions) ∧
      r.percentage =
        jnRound1 (jnMul (jnDiv (sumScores r.questions) (optJN req.maxScore)) (.num 100))) ∧
    (∃ r, R1.handle reqTen c4senv = (.ok r, [.vision, .chat]) ∧
      r.totalScore = .num 7 ∧ r.percentage = .num 70 ∧ r.grade = "7 discreto") := by
  refine ⟨?_, ?_, ?_⟩
  · intro req env r log h
    obtain ⟨e, qs, ev, _, rfl, _⟩ := R1_handle_ok_inv h
    exact ⟨R1_mkResult_totalScore _ _ _ _ _ _ _, R1_mkResult_percentage _ _ _ _ _ _ _⟩
  · intro req env r log h
    obtain ⟨e, qs, ev, _, rfl⟩ := R2_handle_ok_inv h
    exact ⟨R2_mkResult_totalScore _ _ _ _ _ _ _, R2_mkResult_percentage _ _ _ _ _ _ _⟩
  · have hv : R1.validate reqTen = none := rfl
    have hp : attemptParse (some "{x}") c4senv.extractParsed = some
        { studentName := some "Mario"
          questions := some
            [{ number := 1, text := some "Capitale?", studentAnswer := some "Roma" },
             { number := 2, text := some "Fiume?", studentAnswer := some "Po" }] } := rfl
    have hh := R1_handle_success hv rfl hp rfl (by simp) rfl
    have hev : attemptParse (some "{e}") c4senv.evalParsed = some
        { questions := some
            [{ number := some 1, score := .num 3, correctAnswer := some "Roma"
               feedback := some "ok", isCorrect := some true },
             { number := some 2, score := .num 4, correctAnswer := some "Po"
               feedback := some "quasi", isCorrect := some true }]
          overallFeedback := some "Discreto" } := rfl
    rw [hev, Option.getD_some] at hh
    have hcap : jnDiv (optJN reqTen.maxScore)
        (.num (List.length
          [({ number := 1, text := some "Capitale?", studentAnswer := some "Roma" } : ExtractedQ),
           { number := 2, text := some "Fiume?", studentAnswer := some "Po" }])) = .num 5 := by
      norm_num [reqTen, optJN, jnDiv]
    rw [hcap] at hh
    have hsel1 : entrySel (some
        [{ number := some 1, score := JNum.num 3, correctAnswer := some "Roma"
           feedback := some "ok", isCorrect := some true },
         { number := some 2, score := JNum.num 4, correctAnswer := some "Po"
           feedback := some "quasi", isCorrect := some true }]) (1 : ℤ) 0 =
        some { number := some 1, score := JNum.num 3, correctAnswer := some "Roma"
               feedback := some "ok", isCorrect := some true } := rfl
    have hsel2 : entrySel (some
        [{ number := some 1, score := JNum.num 3, correctAnswer := some "Roma"
           feedback := some "ok", isCorrect := some true },
         { number := some 2, score := JNum.num 4, correctAnswer := some "Po"
           feedback := some "quasi", isCorrect := some true }]) (2 : ℤ) 1 =
        some { number := some 2, score := JNum.num 4, correctAnswer := some "Po"
               feedback := some "quasi", isCorrect := some true } := rfl
    have hsum : sumScores
        [R1.mkQuestion (.num 5) c4senv.now (some
           [{ number := some 1, score := JNum.num 3, correctAnswer := some "Roma"
              feedback := some "ok", isCorrect := some true },
            { number := some 2, score := JNum.num 4, correctAnswer := some "Po"
              feedback := some "quasi", isCorrect := some true }])
          { number := 1, text := some "Capitale?", studentAnswer := some "Roma" } 0,
         R1.mkQuestion (.num 5) c4senv.now (some
           [{ number := some 1, score := JNum.num 3, correctAnswer := some "Roma"
              feedback := some "ok", isCorrect := some true },
            { number := some 2, score := JNum.num 4, correctAnswer := some "Po"
              feedback := some "quasi", isCorrect := some true }])
          { number := 2, text := some "Fiume?", studentAnswer := some "Po" } 1] = .num 7 := by
      rw [R1_mkQuestion_of_sel hsel1, R1_mkQuestion_of_sel hsel2]
      show jnAdd (jnAdd (.num 0)
          (jnMin (jnMax (.num 0) (jnOr (.num 3) (jnDiv (.num 5) (.num 2)))) (.num 5)))
          (jnMin (jnMax (.num 0) (jnOr (.num 4) (jnDiv (.num 5) (.num 2)))) (.num 5)) = .num 7
      norm_num [jnDiv, jnOr, jnTruthy, jnMax, jnMin, jnAdd, max_def, min_def]
    refine ⟨_, hh, ?_, ?_, ?_⟩
    · rw [R1_mkResult_totalScore]
      rw [show (R1.mkResult reqTen.subject (optJN reqTen.maxScore) (.num 5) c4senv.now
        { studentName := some "Mario"
          questions := some
            [{ number := 1, text := some "Capitale?", studentAnswer := some "Roma" },
             { number := 2, text := some "Fiume?", studentAnswer := some "Po" }] }
        [{ number := 1, text := some "Capitale?", studentAnswer := some "Roma" },
         { number := 2, text := some "Fiume?", studentAnswer := some "Po" }]
        { questions := some
            [{ number := some 1, score := .num 3, correctAnswer := some "Roma"
               feedback := some "ok", isCorrect := some true },
             { number := some 2, score := .num 4, correctAnswer := some "Po"
               feedback := some "quasi", isCorrect := some true }]
          overallFeedback := some "Discreto" }).questions =
        [R1.mkQuestion (.num 5) c4senv.now (some
           [{ number := some 1, score := JNum.num 3, correctAnswer := some "Roma"
              feedback := some "ok", isCorrect := some true },
            { number := some 2, score := JNum.num 4, correctAnswer := some "Po"
              feedback := some "quasi", isCorrect := some true }])
          { number := 1, text := some "Capitale?", studentAnswer := some "Roma" } 0,
         R1.mkQuestion (.num 5) c4senv.now (some
           [{ number := some 1, score := JNum.num 3, correctAnswer := some "Roma"
              feedback := some "ok", isCorrect := some true },
            { number := some 2, score := JNum.num 4, correctAnswer := some "Po"
              feedback := some "quasi", isCorrect := some true }])
          { number := 2, text := some "Fiume?", studentAnswer := some "Po" } 1] from rfl]
      rw [hsum]
      norm_num [jnRound1, round1, jsRound]
    · rw [R1_mkResult_percentage]
      rw [show (R1.mkResult reqTen.subject (optJN reqTen.maxScore) (.num 5) c4senv.now
        { studentName := some "Mario"
          questions := some
            [{ number := 1, text := some "Capitale?", studentAnswer := some "Roma" },
             { number := 2, text := some "Fiume?", studentAnswer := some "Po" }] }
        [{ number := 1, text := some "Capitale?", studentAnswer := some "Roma" },
         { number := 2, text := some "Fiume?", studentAnswer := some "Po" }]
        { questions := some
            [{ number := some 1, score := .num 3, correctAnswer := some "Roma"
               feedback := some "ok", isCorrect := some true },
             { number := some 2, score := .num 4, correctAnswer := some "Po"
               feedback := some "quasi", isCorrect := some true }]
          overallFeedback := some "Discreto" }).questions =
        [R1.mkQuestion (.num 5) c4senv.now (some
           [{ number := some 1, score := JNum.num 3, correctAnswer := some "Roma"
              feedback := some "ok", isCorrect := some true },
            { number := some 2, score := JNum.num 4, correctAnswer := some "Po"
              feedback := some "quasi", isCorrect := some true }])
          { number := 1, text := some "Capitale?", studentAnswer := some "Roma" } 0,
         R1.mkQuestion (.num 5) c4senv.now (some
           [{ number := some 1, score := JNum.num 3, correctAnswer := some "Roma"
              feedback := some "ok", isCorrect := some true },
            { number := some 2, score := JNum.num 4, correctAnswer := some "Po"
              feedback := some "quasi", isCorrect := some true }])
          { number := 2, text := some "Fiume?", studentAnswer := some "Po" } 1] from rfl]
      rw [hsum]
      norm_num [reqTen, optJN, jnDiv, jnMul, jnRound1, round1, jsRound]
    · rw [R1.mkResult_grade]
      rw [show (R1.mkResult reqTen.subject (optJN reqTen.maxScore) (.num 5) c4senv.now
        { studentName := some "Mario"
          questions := some
            [{ number := 1, text := some "Capitale?", studentAnswer := some "Roma" },
             { number := 2, text := some "Fiume?", studentAnswer := some "Po" }] }
        [{ number := 1, text := some "Capitale?", studentAnswer := some "Roma" },
         { number := 2, text := some "Fiume?", studentAnswer := some "Po" }]
        { questions := some
            [{ number := some 1, score := .num 3, correctAnswer := some "Roma"
               feedback := some "ok", isCorrect := some true },
             { number := some 2, score := .num 4, correctAnswer := some "Po"
               feedback := some "quasi", isCorrect := some true }]
          overallFeedback := some "Discreto" }).questions =
        [R1.mkQuestion (.num 5) c4senv.now (some
           [{ number := some 1, score := JNum.num 3, correctAnswer := some "Roma"
              feedback := some "ok", isCorrect := some true },
            { number := some 2, score := JNum.num 4, correctAnswer := some "Po"
              feedback := some "quasi", isCorrect := some true }])
          { number := 1, text := some "Capitale?", studentAnswer := some "Roma" } 0,
         R1.mkQuestion (.num 5) c4senv.now (some
           [{ number := some 1, score := JNum.num 3, correctAnswer := some "Roma"
              feedback := some "ok", isCorrect := some true },
            { number := some 2, score := JNum.num 4, correctAnswer := some "Po"
              feedback := some "quasi", isCorrect := some true }])
          { number := 2, text := some "Fiume?", studentAnswer := some "Po" } 1] from rfl]
      rw [hsum]
      have hpct : jnMul (jnDiv (JNum.num 7) (optJN reqTen.maxScore)) (.num 100) = .num 70 := by
        norm_num [reqTen, optJN, jnDiv, jnMul]
      rw [hpct, grade_val]
      norm_num

/-- C4 counterexample: in the single-shot revision the model of `c4env`
supplies per-question scores 3 and 4 but also a truthy top-level
`totalScore` of 100; the handler reports `totalScore = 100` verbatim while
the rounded sum of the clamped per-question scores is 7. -/
theorem C4_totals_cx :
    OS.handle reqTen c4env = (.ok c4osres, [.vision]) ∧
    c4osres.totalScore = .num 100 ∧
    jnRound1 (sumScores c4osres.questions) = .num 7 ∧
    c4osres.totalScore ≠ jnRound1 (sumScores c4osres.questions) := by
  have h1 : c4osres.totalScore = jnRound1 (jnOr (.num 100) (sumScores c4osres.questions)) := rfl
  have h2 : c4osres.totalScore = .num 100 := by
    rw [h1]; norm_num [jnOr, jnTruthy, jnRound1, round1, jsRound]
  have hq : c4osres.questions =
      [OS.mkQuestion (jnDiv (optJN reqTen.maxScore)
          (jnOr (jnOr (.num 2) (.num (List.length
            [({ number := some 1, text := some "Capitale?", studentAnswer := some "Roma"
                correctAnswer := some "Roma", isCorrect := some true, score := .num 3
                feedback := some "ok" } : OS.OSQ),
             { number := some 2, text := some "Fiume?", studentAnswer := some "Po"
               correctAnswer := some "Po", isCorrect := some true, score := .num 4
               feedback := some "ok" }]))) (.num 1))) 5
        { number := some 1, text := some "Capitale?", studentAnswer := some "Roma"
          correctAnswer := some "Roma", isCorrect := some true, score := .num 3
          feedback := some "ok" } 0,
       OS.mkQuestion (jnDiv (optJN reqTen.maxScore)
          (jnOr (jnOr (.num 2) (.num (List.length
            [({ number := some 1, text := some "Capitale?", studentAnswer := some "Roma"
                correctAnswer := some "Roma", isCorrect := some true, score := .num 3
                feedback := some "ok" } : OS.OSQ),
             { number := some 2, text := some "Fiume?", studentAnswer := some "Po"
               correctAnswer := some "Po", isCorrect := some true, score := .num 4
               feedback := some "ok" }]))) (.num 1))) 5
        { number := some 2, text := some "Fiume?", studentAnswer := some "Po"
          correctAnswer := some "Po", isCorrect := some true, score := .num 4
          feedback := some "ok" } 1] := rfl
  have hcap : jnDiv (optJN reqTen.maxScore)
      (jnOr (jnOr (.num 2) (.num (List.length
        [({ number := some 1, text := some "Capitale?", studentAnswer := some "Roma"
            correctAnswer := some "Roma", isCorrect := some true, score := .num 3
            feedback := some "ok" } : OS.OSQ),
         { number := some 2, text := some "Fiume?", studentAnswer := some "Po"
           correctAnswer := some "Po", isCorrect := some true, score := .num 4
           feedback := some "ok" }]))) (.num 1)) = .num 5 := by
    norm_num [reqTen, optJN, jnOr, jnTruthy, jnDiv]
  rw [hcap] at hq
  have h3 : jnRound1 (sumScores c4osres.questions) = .num 7 := by
    rw [hq]
    show jnRound1 (jnAdd (jnAdd (.num 0) (jnMin (jnMax (.num 0) (.num 3)) (.num 5)))
      (jnMin (jnMax (.num 0) (.num 4)) (.num 5))) = .num 7
    norm_num [jnAdd, jnMax, jnMin, jnRound1, round1, jsRound, max_def, min_def]
  exact ⟨rfl, h2, h3, by rw [h2, h3]; norm_num⟩

/-- C4 witness: the two-stage part of the claim applied to the concrete
`c4senv` scenario. -/
theorem C4_totals_w :
    c4sres.totalScore = jnRound1 (sumScores c4sres.questions) ∧
    c4sres.percentage =
      jnRound1 (jnMul (jnDiv (sumScores c4sres.questions) (optJN reqTen.maxScore)) (.num 100)) :=
  C4_totals.1 reqTen c4senv c4sres [.vision, .chat] rfl

/-- C10: in both two-stage revisions the grade is `calculateGrade` applied
to the unrounded percentage `sum/maxScore*100`, not to the rounded
`percentage` field; concretely, a single question scored 2374 of
`maxScore = 2500` (unrounded percentage 94.96) is reported with
`percentage = 95` yet grade "9 distinto", while the scale at 95 gives
"10 eccellente". -/
theorem C10_gradeFromUnrounded :
    (∀ (req : AnalysisRequest) (env : R1.Env) (r : CorrectionResult) (log : List ModelCall),
      R1.handle req env = (.ok r, log) →
      r.grade = calculateGrade
        (jnMul (jnDiv (sumScores r.questions) (optJN req.maxScore)) (.num 100))) ∧
    (∀ (req : AnalysisRequest) (env : R2.Env) (r : CorrectionResult) (log : List ModelCall),
      R2.handle req env = (.ok r, log) →
      r.grade = calculateGrade
        (jnMul (jnDiv (sumScores r.questions) (optJN req.maxScore)) (.num 100))) ∧
    (∃ r, R1.handle c10req c10env = (.ok r, [.vision, .chat]) ∧
      r.percentage = .num 95 ∧ r.grade = "9 distinto" ∧
      calculateGrade (.num 95) = "10 eccellente" ∧ r.grade ≠ calculateGrade (.num 95)) := by
  refine ⟨?_, ?_, ?_⟩
  · intro req env r log h
    obtain ⟨e, qs, ev, _, rfl, _⟩ := R1_handle_ok_inv h
    exact R1.mkResult_grade _ _ _ _ _ _ _
  · intro req env r log h
    obtain ⟨e, qs, ev, _, rfl⟩ := R2_handle_ok_inv h
    exact rfl
  · have hv : R1.validate c10req = none := rfl
    have hp : attemptParse (some "{x}") c10env.extractParsed = some
        { studentName := some "Mario"
          questions := some [{ number := 1, text := some "Tema", studentAnswer := some "Svolto" }] } :=
      rfl
    have hh := R1_handle_success hv rfl hp rfl (by simp) rfl
    have hev : attemptParse (some "{e}") c10env.evalParsed = some
        { questions := some
            [{ number := some 1, score := .num 2374, correctAnswer := some ""
               feedback := some "ok", isCorrect := some true }]
          overallFeedback := some "Quasi perfetto" } := rfl
    rw [hev, Option.getD_some] at hh
    have hcap : jnDiv (optJN c10req.maxScore)
        (.num (List.length
          [({ number := 1, text := some "Tema", studentAnswer := some "Svolto" } : ExtractedQ)])) =
        .num 2500 := by
      norm_num [c10req, optJN, jnDiv]
    rw [hcap] at hh
    have hsel : entrySel (some
        [{ number := some 1, score := JNum.num 2374, correctAnswer := some ""
           feedback := some "ok", isCorrect := some true }]) (1 : ℤ) 0 =
        some { number := some 1, score := JNum.num 2374, correctAnswer := some ""
               feedback := some "ok", isCorrect := some true } := rfl
    have hsum : sumScores
        [R1.mkQuestion (.num 2500) c10env.now (some
           [{ number := some 1, score := JNum.num 2374, correctAnswer := some ""
              feedback := some "ok", isCorrect := some true }])
          { number := 1, text := some "Tema", studentAnswer := some "Svolto" } 0] = .num 2374 := by
      rw [R1_mkQuestion_of_sel hsel]
      show jnAdd (.num 0)
          (jnMin (jnMax (.num 0) (jnOr (.num 2374) (jnDiv (.num 2500) (.num 2)))) (.num 2500)) =
        .num 2374
      norm_num [jnDiv, jnOr, jnTruthy, jnMax, jnMin, jnAdd, max_def, min_def]
    have hq : (R1.mkResult c10req.subject (optJN c10req.maxScore) (.num 2500) c10env.now
        { studentName := some "Mario"
          questions := some [{ number := 1, text := some "Tema", studentAnswer := some "Svolto" }] }
        [{ number := 1, text := some "Tema", studentAnswer := some "Svolto" }]
        { questions := some
            [{ number := some 1, score := .num 2374, correctAnswer := some ""
               feedback := some "ok", isCorrect := some true }]
          overallFeedback := some "Quasi perfetto" }).questions =
        [R1.mkQuestion (.num 2500) c10env.now (some
           [{ number := some 1, score := JNum.num 2374, correctAnswer := some ""
              feedback := some "ok", isCorrect := some true }])
          { number := 1, text := some "Tema", studentAnswer := some "Svolto" } 0] := rfl
    have hpcteq : (R1.mkResult c10req.subject (optJN c10req.maxScore) (.num 2500) c10env.now
        { studentName := some "Mario"
          questions := some [{ number := 1, text := some "Tema", studentAnswer := some "Svolto" }] }
        [{ number := 1, text := some "Tema", studentAnswer := some "Svolto" }]
        { questions := some
            [{ number := some 1, score := .num 2374, correctAnswer := some ""
               feedback := some "ok", isCorrect := some true }]
          overallFeedback := some "Quasi perfetto" }).percentage = .num 95 := by
      rw [R1_mkResult_percentage, hq, hsum]
      norm_num [c10req, optJN, jnDiv, jnMul, jnRound1, round1, jsRound]
    have hgr : (R1.mkResult c10req.subject (optJN c10req.maxScore) (.num 2500) c10env.now
        { studentName := some "Mario"
          questions := some [{ number := 1, text := some "Tema", studentAnswer := some "Svolto" }] }
        [{ number := 1, text := some "Tema", studentAnswer := some "Svolto" }]
        { questions := some
            [{ number := some 1, score := .num 2374, correctAnswer := some ""
               feedback := some "ok", isCorrect := some true }]
          overallFeedback := some "Quasi perfetto" }).grade = "9 distinto" := by
      rw [R1.mkResult_grade, hq, hsum]
      have hpct : jnMul (jnDiv (JNum.num 2374) (optJN c10req.maxScore)) (.num 100) =
          .num (2374 / 25) := by
        norm_num [c10req, optJN, jnDiv, jnMul]
      rw [hpct, grade_val]
      norm_num
    have hcal : calculateGrade (.num 95) = "10 eccellente" := by
      rw [grade_val]; norm_num
    exact ⟨_, hh, hpcteq, hgr, hcal, by rw [hgr, hcal]; decide⟩

/-- C10 witness: the two-stage grade law applied to the concrete `c10env`
run. -/
theorem C10_gradeFromUnrounded_w :
    c10res.grade = calculateGrade
      (jnMul (jnDiv (sumScores c10res.questions) (optJN c10req.maxScore)) (.num 100)) :=
  C10_gradeFromUnrounded.1 c10req c10env c10res [.vision, .chat] rfl
